import Mathlib

/-!
Verification development for the aerthos dungeon engine.

The Python source is shallowly embedded: pure functions become Lean
functions, the process-wide pseudo-random source (`random.Random` /
the module-level `random` functions) is threaded explicitly as a `Nat`
state, machine integers are `Int`/`Nat`, Python floats appearing in the
generator configuration are embedded as `ℚ`, and fallible code returns
`Except`.  Connection sets (`set` of room ids) are embedded as
insertion-ordered lists, matching the deterministic single-process
behaviour of the source.
-/

/-! ## Pseudo-random source

Deterministic stand-in for Python's Mersenne-Twister backed
`random.Random`.  The claims under verification depend only on every
draw being a pure function of the generator state and on seeding
resetting that state, never on the distribution of the draws, so a
linear-congruential step is used. -/

def rngStep (s : Nat) : Nat := (s * 25214903917 + 11) % 2 ^ 48

def rngOut (s : Nat) : Nat := rngStep s / 2 ^ 16

/-- `random.randint(a, b)`: uniform draw from `[a, b]` (used with `a ≤ b`). -/
def randBetween (a b s : Nat) : Nat × Nat := (a + rngOut s % (b - a + 1), rngStep s)

/-- `random.choice(l)` with an explicit default for the (unreachable in the
source) empty-list case. -/
def pickD {α : Type} (l : List α) (d : α) (s : Nat) : α × Nat :=
  (l.getD (rngOut s % l.length) d, rngStep s)

/-- `random.sample(l, k)`: `k` distinct elements, in selection order. -/
def sampleList {α : Type} [Inhabited α] (l : List α) : Nat → Nat → List α × Nat
  | 0, s => ([], s)
  | k + 1, s =>
    if l.isEmpty then ([], s)
    else
      let i := rngOut s % l.length
      let rest := sampleList (l.eraseIdx i) k (rngStep s)
      (l.getD i default :: rest.1, rest.2)

/-- `random.shuffle` embedded as a full-length sample (a permutation drawn
from the generator state). -/
def shuffleList {α : Type} [Inhabited α] (l : List α) (s : Nat) : List α × Nat :=
  sampleList l l.length s

/-- `random.random()`: a draw in `[0, 1)`, embedded as a dyadic rational. -/
def nextUnit (s : Nat) : ℚ × Nat := (mkRat (rngOut s % 2 ^ 20) (2 ^ 20), rngStep s)

/-- `int(random.gauss(0, 5))`: embedded as a bounded integer draw; the
generator only relies on it being a deterministic integer offset that is
afterwards clamped. -/
def nextGaussInt (s : Nat) : Int × Nat := ((rngOut s % 21 : Int) - 10, rngStep s)

/-- `range(a, b)` as a list. -/
def rangeList (a b : Nat) : List Nat := (List.range (b - a)).map (· + a)

/-! ## Dice engine (`engine/combat.py`, `DiceRoller`) -/

/-- A parsed `XdY+Z` dice expression. -/
structure DiceSpec where
  num : Nat
  size : Nat
  modifier : Int
deriving DecidableEq, Repr

/-- Sum of `n` independent `randint(1, size)` draws. -/
def rollSum : Nat → Nat → Nat → Int × Nat
  | 0, _, s => (0, s)
  | n + 1, size, s =>
    let d := randBetween 1 size s
    let rest := rollSum n size d.2
    ((d.1 : Int) + rest.1, rest.2)

/-- Roll a parsed dice expression: dice sum plus modifier. -/
def rollSpec (spec : DiceSpec) (s : Nat) : Int × Nat :=
  let r := rollSum spec.num spec.size s
  (r.1 + spec.modifier, r.2)

def digitsToNat (cs : List Char) : Nat :=
  cs.foldl (fun acc c => acc * 10 + (c.toNat - 48)) 0

def takeDigits (cs : List Char) : List Char × List Char :=
  (cs.takeWhile Char.isDigit, cs.dropWhile Char.isDigit)

/-- The `re.match(r'(\d*)d(\d+)([+\-]\d+)?', s)` step of `DiceRoller.roll`.
`re.match` anchors at the start only: trailing characters after the matched
portion are ignored, and a trailing sign without digits simply leaves the
optional modifier group unmatched. -/
def parseDiceCore (cs : List Char) : Option DiceSpec :=
  let p1 := takeDigits cs
  match p1.2 with
  | 'd' :: r2 =>
    let p2 := takeDigits r2
    if p2.1.isEmpty then none
    else
      let nd := if p1.1.isEmpty then 1 else digitsToNat p1.1
      let sz := digitsToNat p2.1
      let md : Int :=
        match p2.2 with
        | '+' :: r4 =>
          let p3 := takeDigits r4
          if p3.1.isEmpty then 0 else (digitsToNat p3.1 : Int)
        | '-' :: r4 =>
          let p3 := takeDigits r4
          if p3.1.isEmpty then 0 else -(digitsToNat p3.1 : Int)
        | _ => 0
      some ⟨nd, sz, md⟩
  | _ => none

/-- `int(s)` on a stripped, lowered string that contains no `+`/`-`:
digits only. -/
def parsePyInt (cs : List Char) : Except String Int :=
  if cs.isEmpty then Except.error "invalid literal for int()"
  else if cs.all Char.isDigit then Except.ok (digitsToNat cs : Int)
  else Except.error "invalid literal for int()"

/-- Tail of the flat-expression evaluator: a chain of `+n` / `-n` terms. -/
def evalFlatTail (acc : Int) : List Char → Except String Int
  | [] => Except.ok acc
  | '+' :: r =>
    if (r.takeWhile Char.isDigit).isEmpty then Except.error "eval: malformed expression"
    else evalFlatTail (acc + (digitsToNat (r.takeWhile Char.isDigit) : Int)) (r.dropWhile Char.isDigit)
  | '-' :: r =>
    if (r.takeWhile Char.isDigit).isEmpty then Except.error "eval: malformed expression"
    else evalFlatTail (acc - (digitsToNat (r.takeWhile Char.isDigit) : Int)) (r.dropWhile Char.isDigit)
  | _ :: _ => Except.error "eval: malformed expression"
termination_by cs => cs.length
decreasing_by
  all_goals simp only [List.length_cons]
  all_goals exact Nat.lt_succ_of_le (List.dropWhile_sublist _).length_le

/-- The `eval(dice_string)` branch of `DiceRoller.roll` for flat
`number+modifier` strings.  The source delegates this branch to Python
`eval`, which accepts a strict superset of these expressions; the embedding
models the sum-of-signed-integers sublanguage that dice data exercises. -/
def evalFlat (cs : List Char) : Except String Int :=
  let first := takeDigits cs
  if first.1.isEmpty then Except.error "eval: malformed expression"
  else evalFlatTail (digitsToNat first.1 : Int) first.2

def isPySpace (c : Char) : Bool := c = ' ' ∨ c = '\t' ∨ c = '\n' ∨ c = '\r'

/-- `s.strip().lower()` over the character list. -/
def pyStripLower (s : String) : List Char :=
  (((s.data.dropWhile isPySpace).reverse.dropWhile isPySpace).reverse).map Char.toLower

/-- `DiceRoller.roll(dice_string)` from `engine/combat.py`: strip and
lower-case, handle the no-`d` flat branch, otherwise prefix-match the dice
regular expression and roll.  `random.randint(1, 0)` raising on an empty
range (die size `0`) is embedded as an error. -/
def pyRoll (diceString : String) (s : Nat) : Except String Int × Nat :=
  let cs := pyStripLower diceString
  if ¬ cs.contains 'd' then
    if cs.contains '+' ∨ cs.contains '-' then (evalFlat cs, s)
    else (parsePyInt cs, s)
  else
    match parseDiceCore cs with
    | none => (Except.error ("Invalid dice notation: " ++ String.mk cs), s)
    | some spec =>
      if spec.size = 0 then (Except.error "empty range for randrange()", s)
      else
        let r := rollSpec spec s
        (Except.ok r.1, r.2)

/-! ## Generator configuration (`generator/config.py`) -/

/-- `DungeonConfig` record.  Frequencies are Python floats in the source,
embedded as `ℚ`. -/
structure DungeonConfig where
  seed : Option Int := none
  numRooms : Nat := 10
  numLevels : Nat := 1
  layoutType : String := "branching"
  deadEnds : Nat := 2
  loops : Nat := 0
  combatFrequency : ℚ := mkRat 6 10
  trapFrequency : ℚ := mkRat 2 10
  emptyRoomFrequency : ℚ := mkRat 2 10
  partyLevel : Nat := 1
  lethalityFactor : ℚ := 1
  monsterPool : List String := ["kobold", "goblin", "giant_rat", "skeleton"]
  treasureFrequency : ℚ := mkRat 4 10
  treasureLevel : String := "low"
  magicItemChance : ℚ := mkRat 1 10
  includeBoss : Bool := true
  bossMonster : Option String := none
  safeRooms : Nat := 2
  dungeonTheme : String := "mine"
  startingItems : List String := ["torch"]
  guaranteedItems : List String := []
deriving Repr

/-- `DungeonConfig.__post_init__`: validation performed synchronously at
construction, raising `ValueError` on the first violated check. -/
def validateConfig (c : DungeonConfig) : Except String DungeonConfig :=
  if c.numRooms < 3 then Except.error "Must have at least 3 rooms"
  else if c.combatFrequency + c.trapFrequency + c.emptyRoomFrequency > 1 then
    Except.error "Encounter frequencies sum to more than 1.0"
  else if ¬ (c.layoutType = "linear" ∨ c.layoutType = "branching" ∨ c.layoutType = "network") then
    Except.error ("Invalid layout_type: " ++ c.layoutType)
  else if ¬ (c.treasureLevel = "low" ∨ c.treasureLevel = "medium" ∨ c.treasureLevel = "high") then
    Except.error ("Invalid treasure_level: " ++ c.treasureLevel)
  else Except.ok c

/-! ## Room model (`generator/dungeon_generator.py`) -/

/-- Exit directions.  The data model allows all six; the generator only ever
assigns the four cardinal ones. -/
inductive Dir
  | north
  | south
  | east
  | west
  | up
  | down
deriving DecidableEq, Repr

/-- The `opposites` table of `_assign_bidirectional_exits`, extended to the
two vertical directions it never receives. -/
def Dir.opposite : Dir → Dir
  | .north => .south
  | .south => .north
  | .east => .west
  | .west => .east
  | .up => .down
  | .down => .up

def cardinalDirs : List Dir := [.north, .south, .east, .west]

def allDirs : List Dir := [.north, .south, .east, .west, .up, .down]

/-- A raw encounter record attached to a room. -/
inductive Encounter
  | combat (monsters : List String) (trigger : String) (boss : Bool)
  | trap (trapType : String) (damage : String) (detectDifficulty : Int) (trigger : String)
deriving DecidableEq, Repr

/-- The boss-treasure payload attached to the final room. -/
structure BossTreasure where
  gold : Nat
  gems : Nat
  magicItems : List String
deriving DecidableEq, Repr

/-- One room record of the generated dungeon dictionary. -/
structure RoomData where
  id : Nat
  title : String
  description : String
  lightLevel : String
  exits : Dir → Option Nat
  encounters : List Encounter
  items : List String
  safeRest : Bool
  treasure : Option BossTreasure

/-- The room dictionary: ids in insertion order plus the per-id records.
Room ids are the numeric part of the `room_NNN` keys. -/
structure Rooms where
  ids : List Nat
  data : Nat → RoomData

/-- The connectivity graph: ids in insertion order, adjacency in
insertion order. -/
structure RoomGraph where
  ids : List Nat
  adj : Nat → List Nat

/-! ### Layout generation -/

/-- `_generate_linear_layout`: a single chain `1 — 2 — … — N`. -/
def linearLayout (numRooms : Nat) : RoomGraph where
  ids := (List.range numRooms).map (· + 1)
  adj := fun i =>
    (if 1 < i ∧ i ≤ numRooms then [i - 1] else []) ++
      (if 1 ≤ i ∧ i < numRooms then [i + 1] else [])

/-- `max(3, int(num_rooms * 0.6))`, the main-path length of the branching
layout.  `int(num_rooms * 0.6)` is embedded as `3 * numRooms / 5`, the exact
value of the float truncation for all realistic room counts. -/
def mainChainLen (numRooms : Nat) : Nat := max 3 (3 * numRooms / 5)

/-- Mutable state of the branch-adding loop of
`_generate_branching_layout`. -/
structure BranchSt where
  adj : Nat → List Nat
  ids : List Nat
  counter : Nat

/-- The inner `for j in range(branch_length)` loop: add one short branch of
rooms hanging off `parent`.  `j` is the position within the branch; the
first branch room links to the parent, later ones to their predecessor
(`room_counter - 2` after the increment, i.e. `rid - 1`). -/
def addBranchRooms (numRooms parent : Nat) : Nat → Nat → BranchSt → BranchSt
  | 0, _, st => st
  | n + 1, j, st =>
    if numRooms < st.counter then st
    else
      let rid := st.counter
      let link := if j = 0 then parent else rid - 1
      addBranchRooms numRooms parent n (j + 1)
        { adj := fun x =>
            if x = rid then [link]
            else if x = link then st.adj x ++ [rid]
            else st.adj x,
          ids := st.ids ++ [rid],
          counter := rid + 1 }

/-- One iteration of the `for branch_point in branch_points` loop: draw a
branch length of 1–3 (capped by the remaining room budget) and attach the
branch, unless the budget is exhausted. -/
def branchStep (numRooms : Nat) (acc : BranchSt × Nat) (bp : Nat) : BranchSt × Nat :=
  if numRooms < acc.1.counter then acc
  else
    let d := randBetween 1 3 acc.2
    let len := min d.1 (numRooms - acc.1.counter + 1)
    (addBranchRooms numRooms bp len 0 acc.1, d.2)

/-- `_generate_branching_layout`: a main chain of `max(3, int(0.6·N))`
rooms with short dead-end branches attached at sampled interior points. -/
def branchingLayout (c : DungeonConfig) (s : Nat) : RoomGraph × Nat :=
  let numRooms := c.numRooms
  let deadEnds := min c.deadEnds (numRooms / 3)
  let mainLen := mainChainLen numRooms
  let adj0 : Nat → List Nat := fun i =>
    (if 1 < i ∧ i ≤ mainLen then [i - 1] else []) ++
      (if 1 ≤ i ∧ i < mainLen then [i + 1] else [])
  let ids0 := (List.range mainLen).map (· + 1)
  let sp := sampleList (rangeList 2 mainLen) (min deadEnds (mainLen - 2)) s
  let fin := sp.1.foldl (branchStep numRooms) (⟨adj0, ids0, mainLen + 1⟩, sp.2)
  ({ ids := fin.1.ids, adj := fin.1.adj }, fin.2)

/-- Append `b` to the adjacency list of `a` (a `set.add` of a fresh
element). -/
def addAdj (g : Nat → List Nat) (a b : Nat) : Nat → List Nat :=
  fun x => if x = a then g a ++ [b] else g x

/-- The `while attempts < 20` retry loop of `_generate_network_layout`: try
to find two distinct, unconnected rooms with numeric distance above 2 and
connect them; give up after the attempt budget runs out. -/
def loopAttempt (ids : List Nat) : Nat → ((Nat → List Nat) × Nat) → (Nat → List Nat) × Nat
  | 0, acc => acc
  | n + 1, acc =>
    let adj := acc.1
    let r1 := pickD ids 0 acc.2
    let r2 := pickD ids 0 r1.2
    if r1.1 ≠ r2.1 ∧ ¬ (adj r1.1).contains r2.1 ∧ 2 < max r1.1 r2.1 - min r1.1 r2.1 then
      (addAdj (addAdj adj r1.1 r2.1) r2.1 r1.1, r2.2)
    else loopAttempt ids n (adj, r2.2)

/-- `_generate_network_layout`: the branching layout plus up to
`min(loops, N/4)` extra edges. -/
def networkLayout (c : DungeonConfig) (s : Nat) : RoomGraph × Nat :=
  let bg := branchingLayout c s
  let ids := bg.1.ids
  let loopsToAdd := min c.loops (ids.length / 4)
  let fin := (List.range loopsToAdd).foldl
    (fun acc _ => loopAttempt ids 20 acc) (bg.1.adj, bg.2)
  ({ ids := ids, adj := fin.1 }, fin.2)

/-- `_generate_room_graph`: dispatch on the layout type, defaulting to the
linear layout. -/
def genRoomGraph (c : DungeonConfig) (s : Nat) : RoomGraph × Nat :=
  if c.layoutType = "linear" then (linearLayout c.numRooms, s)
  else if c.layoutType = "branching" then branchingLayout c s
  else if c.layoutType = "network" then networkLayout c s
  else (linearLayout c.numRooms, s)

/-! ### Spatial exit assignment (`_assign_bidirectional_exits`) -/

/-- Mutable state of the exit-assignment pass: the per-room exit maps, the
per-room available-direction lists, and the set of processed room pairs. -/
structure ExitsState where
  exits : Nat → Dir → Option Nat
  avail : Nat → List Dir
  processed : List (Nat × Nat)

/-- The canonical room pair (smaller id first). -/
def canonPair (a b : Nat) : Nat × Nat := if a ≤ b then (a, b) else (b, a)

/-- Direction choice for one connection: prefer a direction consistent with
the relative numbering, else fall back to the first mutually available
pair. -/
def chooseDir (avail : Nat → List Dir) (room conn : Nat) : Option Dir :=
  let fallback := (avail room).find? (fun d => decide (d.opposite ∈ avail conn))
  if conn < room then
    if Dir.south ∈ avail room ∧ Dir.north ∈ avail conn then some .south
    else if Dir.west ∈ avail room ∧ Dir.east ∈ avail conn then some .west
    else fallback
  else
    if Dir.north ∈ avail room ∧ Dir.south ∈ avail conn then some .north
    else if Dir.east ∈ avail room ∧ Dir.west ∈ avail conn then some .east
    else fallback

/-- Process one `(room, connected)` entry of the adjacency iteration:
dedupe by canonical pair, choose a direction, then install the two exits
and consume the two directions.  If no direction pair is available the
connection is silently skipped. -/
def applyEdge (st : ExitsState) (room conn : Nat) : ExitsState :=
  if canonPair room conn ∈ st.processed then st
  else
    let st1 : ExitsState :=
      { st with processed := canonPair room conn :: st.processed }
    match chooseDir st1.avail room conn with
    | none => st1
    | some d =>
      { exits := fun r dd =>
          if r = conn ∧ dd = d.opposite then some room
          else if r = room ∧ dd = d then some conn
          else st1.exits r dd,
        avail := fun r =>
          if r = conn then
            ((if conn = room then (st1.avail room).erase d else st1.avail conn).erase d.opposite)
          else if r = room then (st1.avail room).erase d
          else st1.avail r,
        processed := st1.processed }

def insertSorted (a : Nat) : List Nat → List Nat
  | [] => [a]
  | b :: t => if a ≤ b then a :: b :: t else b :: insertSorted a t

/-- `sorted(...)` over room numbers. -/
def sortNat : List Nat → List Nat
  | [] => []
  | a :: t => insertSorted a (sortNat t)

/-- The iteration order of `_assign_bidirectional_exits`: rooms in sorted
order, each paired with its adjacency list. -/
def edgeList (g : RoomGraph) : List (Nat × Nat) :=
  (sortNat g.ids).flatMap (fun r => (g.adj r).map (fun c => (r, c)))

/-- Run the whole exit-assignment pass over a connectivity graph. -/
def assignExits (g : RoomGraph) : ExitsState :=
  (edgeList g).foldl (fun st e => applyEdge st e.1 e.2)
    { exits := fun _ _ => none, avail := fun _ => cardinalDirs, processed := [] }

/-! ### Theme data and narrative pools -/

def mineTitles : List String :=
  ["Abandoned Shaft", "Mining Tunnel", "Ore Chamber", "Cart Storage",
   "Excavation Site", "Collapsed Passage", "Miners\x27 Rest", "Tool Room",
   "Vein Chamber", "Deep Shaft", "Crystal Cavern", "Foreman\x27s Office"]

def mineDescs : List String :=
  ["Wooden support beams creak ominously as you enter. Mining tools lie scattered about.",
   "An old mining cart sits rusted on broken tracks. The air is thick with dust.",
   "Pickaxes and shovels hang on the walls. A faint draft brings the smell of earth.",
   "Broken lanterns and rope coils litter the floor. The ceiling drips with moisture.",
   "Precious ore veins glimmer in the darkness. This was once a rich find.",
   "The passage ahead has partially collapsed, forcing a narrow squeeze through rubble."]

def cryptTitles : List String :=
  ["Burial Chamber", "Tomb Entrance", "Ossuary", "Catacombs",
   "Shrine of the Dead", "Sarcophagus Hall", "Bone Chapel", "Crypt Passage",
   "Memorial Hall", "Ancient Vault", "Sepulcher", "Charnel House"]

def cryptDescs : List String :=
  ["Stone coffins line the walls, their lids cracked and askew. The dead do not rest easy here.",
   "Bones are piled in alcoves, sorted by type in macabre organization.",
   "Faded frescoes of death and mourning cover the walls. Candles burn with unnatural flames.",
   "The air is cold and still. You can almost hear whispers of those long departed.",
   "Elaborate tombs bear the names of forgotten nobility. Dust covers everything.",
   "Skeletal remains litter the floor. Whatever killed them still lurks nearby."]

def caveTitles : List String :=
  ["Natural Cavern", "Limestone Grotto", "Underground Lake", "Stalactite Chamber",
   "Crystal Formation", "Narrow Passage", "Echo Chamber", "Bat Roost",
   "Flowstone Hall", "Fault Line", "Cave Pool", "Fungus Grove"]

def caveDescs : List String :=
  ["Stalactites and stalagmites create a forest of stone. Water drips constantly.",
   "The cave walls are slick with moisture. Strange fungi glow faintly in the darkness.",
   "The passage narrows here, forcing you to squeeze through gaps in the rock.",
   "A underground stream rushes past, its source and destination unknown.",
   "The cave opens into a vast chamber. Bats screech overhead.",
   "Crystals embedded in the walls catch what little light you have, sparkling mysteriously."]

def ruinsTitles : List String :=
  ["Ruined Hall", "Collapsed Temple", "Ancient Library", "Throne Room",
   "Armory", "Fallen Tower", "Statue Garden", "Royal Vault",
   "Forgotten Archive", "Shattered Dome", "Courtyard", "Ceremonial Chamber"]

def ruinsDescs : List String :=
  ["Crumbling stonework and fallen pillars show the grandeur that once was.",
   "Faded tapestries hang in tatters. Furniture has rotted to dust.",
   "Shelves that once held countless books now hold only decay and cobwebs.",
   "Broken statues watch over the room with vacant eyes. Rubble covers the floor.",
   "The ceiling has partially collapsed, letting in shafts of dim light from above.",
   "Intricate mosaics on the floor are barely visible under centuries of grime."]

def sewerTitles : List String :=
  ["Main Sluice", "Drainage Tunnel", "Waste Channel", "Junction Pool",
   "Overflow Chamber", "Filter Room", "Pump Station", "Cistern",
   "Grate Chamber", "Pipe Maze", "Settling Pool", "Access Shaft"]

def sewerDescs : List String :=
  ["The stench is overwhelming. Dark water flows sluggishly through channels.",
   "Slime covers every surface. You can hear rats skittering in the darkness.",
   "Iron pipes run along the walls, some corroded and dripping foul liquid.",
   "A deep pool of stagnant water blocks part of the passage. Who knows what lurks within?",
   "The walls are carved with ancient drainage runes. They no longer function.",
   "A rusted grate bars further passage. Something large has forced it open from the other side."]

/-- `self.themes.get(theme, self.themes['mine'])['titles']`. -/
def themeTitles (theme : String) : List String :=
  if theme = "mine" then mineTitles
  else if theme = "crypt" then cryptTitles
  else if theme = "cave" then caveTitles
  else if theme = "ruins" then ruinsTitles
  else if theme = "sewer" then sewerTitles
  else mineTitles

/-- `self.themes.get(theme, self.themes['mine'])['descriptions']`. -/
def themeDescs (theme : String) : List String :=
  if theme = "mine" then mineDescs
  else if theme = "crypt" then cryptDescs
  else if theme = "cave" then caveDescs
  else if theme = "ruins" then ruinsDescs
  else if theme = "sewer" then sewerDescs
  else mineDescs

/-- The name-prefix pool of `_generate_name` (`.get` defaulting to mine). -/
def namePrefixPool (theme : String) : List String :=
  if theme = "mine" then ["The Abandoned", "The Lost", "The Dark", "The Cursed", "The Forgotten"]
  else if theme = "crypt" then ["The Ancient", "The Haunted", "The Forsaken", "The Sealed", "The Defiled"]
  else if theme = "cave" then ["The Deep", "The Twisting", "The Echo", "The Crystal", "The Hidden"]
  else if theme = "ruins" then ["The Fallen", "The Shattered", "The Broken", "The Sunken", "The Lost"]
  else if theme = "sewer" then ["The Fetid", "The Dark", "The Flooded", "The Abandoned", "The Ancient"]
  else ["The Abandoned", "The Lost", "The Dark", "The Cursed", "The Forgotten"]

/-- The name-noun pool of `_generate_name` (`.get` defaulting to mine). -/
def nameNounPool (theme : String) : List String :=
  if theme = "mine" then ["Mine", "Shaft", "Excavation", "Quarry", "Pit"]
  else if theme = "crypt" then ["Crypt", "Tomb", "Catacomb", "Sepulcher", "Mausoleum"]
  else if theme = "cave" then ["Cave", "Cavern", "Grotto", "Den", "Hollow"]
  else if theme = "ruins" then ["Ruins", "Temple", "Fortress", "Palace", "Keep"]
  else if theme = "sewer" then ["Sewer", "Cistern", "Aqueduct", "Drains", "Underworks"]
  else ["Mine", "Shaft", "Excavation", "Quarry", "Pit"]

/-- `_generate_name`: a drawn prefix plus a drawn noun. -/
def genName (c : DungeonConfig) (s : Nat) : String × Nat :=
  let p := pickD (namePrefixPool c.dungeonTheme) "" s
  let n := pickD (nameNounPool c.dungeonTheme) "" p.2
  (p.1 ++ " " ++ n.1, n.2)

/-- `_add_monster_hint`: a hint keyed by the first listed monster. -/
def monsterHint (monsters : List String) : String :=
  let m := monsters.headD ""
  if m = "kobold" then " You hear high-pitched chattering echoing from within."
  else if m = "goblin" then " The stench of goblin habitation is unmistakable."
  else if m = "orc" then " Guttural snoring echoes through the chamber."
  else if m = "skeleton" then " The air grows cold, and you sense something unnatural ahead."
  else if m = "giant_rat" then " You hear scratching and squeaking from the darkness."
  else if m = "ogre" then " Heavy footsteps and a foul stench warn of something massive ahead."
  else " Something dangerous lurks within."

/-- `str.capitalize()`. -/
def pyCapitalize (s : String) : String :=
  match s.data with
  | [] => ""
  | c :: t => String.mk (c.toUpper :: t.map Char.toLower)

/-- `str.upper()`. -/
def pyUpper (s : String) : String := String.mk (s.data.map Char.toUpper)

/-! ### Room creation and population -/

/-- Update one room record in place. -/
def updateRoom (rs : Rooms) (rid : Nat) (f : RoomData → RoomData) : Rooms :=
  { rs with data := fun r => if r = rid then f (rs.data r) else rs.data r }

/-- `_create_rooms`: initialise every room with empty exits, run the exit
assignment, then drop the starting items into room 1 (which also raises its
light level to dim). -/
def createRooms (g : RoomGraph) (c : DungeonConfig) : Rooms :=
  let st := assignExits g
  let base : Nat → RoomData := fun rid =>
    { id := rid, title := "Unexplored Chamber", description := "",
      lightLevel := "dark", exits := st.exits rid, encounters := [],
      items := [], safeRest := false, treasure := none }
  let rs : Rooms := { ids := g.ids, data := base }
  if c.startingItems.isEmpty then rs
  else updateRoom rs 1 (fun rm => { rm with items := c.startingItems, lightLevel := "dim" })

/-- `_create_combat_encounter`: 1–4 monsters, nudged by the lethality
factor, drawn from the monster pool. -/
def createCombatEncounter (c : DungeonConfig) (s : Nat) : Encounter × Nat :=
  let d := randBetween 1 4 s
  let nm :=
    if c.lethalityFactor > mkRat 12 10 then d.1 + 1
    else if c.lethalityFactor < mkRat 8 10 then max 1 (d.1 - 1)
    else d.1
  let fin := (List.range nm).foldl
    (fun (acc : List String × Nat) _ =>
      let p := pickD c.monsterPool "" acc.2
      (acc.1 ++ [p.1], p.2)) ([], d.2)
  (Encounter.combat fin.1 "on_enter" false, fin.2)

/-- `_create_trap_encounter`: a trap type, its damage dice, and a detection
difficulty `10 + 5·party_level + noise` clamped to `[10, 40]`. -/
def createTrapEncounter (c : DungeonConfig) (s : Nat) : Encounter × Nat :=
  let t := pickD ["pit", "dart", "poison_needle"] "" s
  let dmg := if t.1 = "pit" then "1d6" else if t.1 = "dart" then "1d4" else "1d3"
  let g := nextGaussInt t.2
  let difficulty : Int := 10 + (c.partyLevel : Int) * 5 + g.1
  (Encounter.trap t.1 dmg (max 10 (min 40 difficulty)) "on_search", g.2)

/-- `int(len(eligible) * frequency)` for a non-negative frequency:
`⌊n · q⌋`, computed on the numerator and denominator so that it evaluates
by kernel reduction (see `freqCount_spec`). -/
def freqCount (n : Nat) (q : ℚ) : Nat := (⌊mkRat (q.num * n) q.den⌋).toNat

/-- `_populate_encounters`: shuffle the non-entrance rooms, give the first
`⌊n·combat_frequency⌋` of them combat encounters, then give the next
`⌊n·trap_frequency⌋` trap encounters unless they already hold combat. -/
def populateEncounters (c : DungeonConfig) (rs : Rooms) (s : Nat) : Rooms × Nat :=
  let eligible := rs.ids.filter (fun r => r ≠ 1)
  let numCombat := freqCount eligible.length c.combatFrequency
  let numTraps := freqCount eligible.length c.trapFrequency
  let sh := shuffleList eligible s
  let afterCombat := (sh.1.take numCombat).foldl
    (fun (acc : Rooms × Nat) rid =>
      let e := createCombatEncounter c acc.2
      (updateRoom acc.1 rid (fun rm => { rm with encounters := rm.encounters ++ [e.1] }), e.2))
    (rs, sh.2)
  ((sh.1.drop numCombat).take numTraps).foldl
    (fun (acc : Rooms × Nat) rid =>
      if ((acc.1).data rid).encounters.isEmpty then
        let e := createTrapEncounter c acc.2
        (updateRoom acc.1 rid (fun rm => { rm with encounters := rm.encounters ++ [e.1] }), e.2)
      else acc)
    afterCombat

/-- `_generate_treasure`: up to one basic item, one arms item tiered by the
treasure level, and one magic item. -/
def genTreasure (c : DungeonConfig) (s : Nat) : List String × Nat :=
  let u1 := nextUnit s
  let r1 :=
    if u1.1 < mkRat 3 10 then
      let p := pickD ["rations", "rope_50ft", "torch"] "" u1.2
      ([p.1], p.2)
    else ([], u1.2)
  let u2 := nextUnit r1.2
  let r2 :=
    if u2.1 < mkRat 4 10 then
      let pool :=
        if c.treasureLevel = "low" then ["dagger", "shortsword", "leather_armor"]
        else if c.treasureLevel = "medium" then ["longsword", "mace", "chain_mail", "shield"]
        else ["longsword", "plate_mail", "shield"]
      let p := pickD pool "" u2.2
      (r1.1 ++ [p.1], p.2)
    else (r1.1, u2.2)
  let u3 := nextUnit r2.2
  if u3.1 < c.magicItemChance then
    let p := pickD ["longsword_plus1", "shortsword_plus1", "dagger_plus1",
                    "chain_mail_plus1", "shield_plus1", "potion_healing"] "" u3.2
    (r2.1 ++ [p.1], p.2)
  else (r2.1, u3.2)

/-- `_place_treasures`: sample `⌊n·treasure_frequency⌋` non-entrance rooms,
fill each with generated treasure, then scatter the guaranteed items over
random eligible rooms. -/
def placeTreasures (c : DungeonConfig) (rs : Rooms) (s : Nat) : Rooms × Nat :=
  let eligible := rs.ids.filter (fun r => r ≠ 1)
  let num := freqCount eligible.length c.treasureFrequency
  let sel := sampleList eligible (min num eligible.length) s
  let afterTreasure := sel.1.foldl
    (fun (acc : Rooms × Nat) rid =>
      let it := genTreasure c acc.2
      (updateRoom acc.1 rid (fun rm => { rm with items := rm.items ++ it.1 }), it.2))
    (rs, sel.2)
  c.guaranteedItems.foldl
    (fun (acc : Rooms × Nat) item =>
      let p := pickD eligible 0 acc.2
      (updateRoom acc.1 p.1 (fun rm => { rm with items := rm.items ++ [item] }), p.2))
    afterTreasure

/-- `_designate_safe_rooms`: prefer encounter-free rooms (falling back to
all rooms when too few exist) and mark a sample of them rest-safe. -/
def designateSafeRooms (c : DungeonConfig) (rs : Rooms) (s : Nat) : Rooms × Nat :=
  let eligible0 := rs.ids.filter (fun r => ((rs.data r).encounters).isEmpty)
  let eligible := if eligible0.length < c.safeRooms then rs.ids else eligible0
  let sel := sampleList eligible (min c.safeRooms eligible.length) s
  (sel.1.foldl (fun acc rid => updateRoom acc rid (fun rm => { rm with safeRest := true })) rs,
   sel.2)

/-- `_add_descriptions`: shuffle the theme pools, then title and describe
every room in sorted order, cycling the pools by index; the entrance gets a
special title, and combat rooms get a monster hint appended. -/
def addDescriptions (c : DungeonConfig) (rs : Rooms) (s : Nat) : Rooms × Nat :=
  let tsh := shuffleList (themeTitles c.dungeonTheme) s
  let dsh := shuffleList (themeDescs c.dungeonTheme) tsh.2
  ((sortNat rs.ids).enum).foldl
    (fun (acc : Rooms × Nat) (p : Nat × Nat) =>
      if p.2 = 1 then
        let pk := pickD dsh.1 "" acc.2
        (updateRoom acc.1 1 (fun rm =>
          { rm with title := pyCapitalize c.dungeonTheme ++ " Entrance",
                    description := "The entrance to a dark " ++ c.dungeonTheme ++ ". " ++ pk.1 }),
         pk.2)
      else
        (updateRoom acc.1 p.2 (fun rm =>
          let base := (dsh.1).getD (p.1 % (dsh.1).length) ""
          let desc :=
            match rm.encounters with
            | Encounter.combat ms _ _ :: _ => base ++ monsterHint ms
            | _ => base
          { rm with title := (tsh.1).getD (p.1 % (tsh.1).length) "", description := desc }),
         acc.2))
    (rs, dsh.2)

/-- The auto-selected boss pool (`boss_options.get(party_level, ['ogre'])`). -/
def bossOptionsFor (partyLevel : Nat) : List String :=
  if partyLevel = 1 then ["ogre", "orc"]
  else if partyLevel = 2 then ["ogre", "orc"]
  else if partyLevel = 3 then ["ogre"]
  else ["ogre"]

/-- `_add_boss_encounter`: overwrite the last room (by id order) with a
single boss encounter, a scaled treasure payload, and boss narrative. -/
def addBoss (c : DungeonConfig) (rs : Rooms) (s : Nat) : Rooms × Nat :=
  let finalRoom := (sortNat rs.ids).getLastD 0
  let bs :=
    match c.bossMonster with
    | some b => (b, s)
    | none => pickD (bossOptionsFor c.partyLevel) "ogre" s
  let gems := randBetween 1 5 bs.2
  let u := nextUnit gems.2
  let mi :=
    if u.1 < mkRat 1 2 then
      let pk := pickD ["longsword_plus1", "longsword_plus2", "chain_mail_plus1",
                       "plate_mail_plus1", "shield_plus1"] "" u.2
      (["potion_healing", pk.1], pk.2)
    else (["potion_healing"], u.2)
  (updateRoom rs finalRoom (fun rm =>
    { rm with
      encounters := [Encounter.combat [bs.1] "on_enter" true],
      treasure := some { gold := 100 * c.partyLevel, gems := gems.1, magicItems := mi.1 },
      description := "The final chamber of the " ++ c.dungeonTheme ++ ". A massive " ++
        pyUpper bs.1 ++ " guards a pile of glittering treasure! " ++
        "This is the master of this place, and a formidable foe.",
      title := pyCapitalize bs.1 ++ " Lair" }), mi.2)

/-! ### The full generator (`DungeonGenerator.generate`) -/

/-- The generated dungeon dictionary. -/
structure Dungeon where
  name : String
  startRoom : Nat
  rooms : Rooms
  generated : Bool
  seed : Option Int
  cfgPartyLevel : Nat
  cfgNumRooms : Nat
  cfgLayout : String

/-- The generation pipeline run against an already-seeded random state. -/
def generateBody (c : DungeonConfig) (s : Nat) : Dungeon × Nat :=
  let nm := genName c s
  let gr := genRoomGraph c nm.2
  let rs := createRooms gr.1 c
  let r1 := populateEncounters c rs gr.2
  let r2 := placeTreasures c r1.1 r1.2
  let r3 := designateSafeRooms c r2.1 r2.2
  let r4 := addDescriptions c r3.1 r3.2
  let r5 := if c.includeBoss then addBoss c r4.1 r4.2 else r4
  ({ name := nm.1, startRoom := 1, rooms := r5.1, generated := true, seed := c.seed,
     cfgPartyLevel := c.partyLevel, cfgNumRooms := c.numRooms, cfgLayout := c.layoutType },
   r5.2)

/-- `random.Random.seed(n)`: the generator state becomes a pure function of
the seed value. -/
def seedRng (n : Int) : Nat := (n.natAbs * 2654435761 + 97) % 2 ^ 48

/-- `DungeonGenerator.generate`: when `config.seed` is set the internal
random source is reseeded from it, otherwise the ambient generator state
(fresh entropy in the source) is used. -/
def generate (ambient : Nat) (c : DungeonConfig) : Dungeon :=
  (generateBody c (match c.seed with | some n => seedRng n | none => ambient)).1

/-! ## Combat resolution (`engine/combat.py`, `CombatResolver`)

The `Character` base class lives in `entities/character.py`, which is not
part of the source tree (only its subclasses and callers are).  Its record
is modelled from the spec: armor class, THAC0, current/maximum hit points,
alive/incapacitated status, and to-hit/damage bonuses derived from ability
scores, plus the monster damage notation and equipped weapon probed via
`hasattr` in the resolver. -/

/-- An equippable weapon (`entities/player.py`, `Weapon`).  The damage
notations are stored pre-parsed as dice expressions. -/
structure Weapon where
  name : String
  damageSm : DiceSpec
  damageL : DiceSpec
  speedFactor : Nat
  magicBonus : Int
deriving DecidableEq, Repr

/-- Modelled from the spec: the combat-participant capability set of the
missing `Character` base class. -/
structure Character where
  name : String
  ac : Int
  thac0 : Int
  hpCurrent : Int
  hpMax : Int
  isAlive : Bool
  size : String
  toHitBonus : Int
  damageBonus : Int
  damageDice : Option DiceSpec
  weapon : Option Weapon
deriving DecidableEq, Repr

def dummyCharacter : Character :=
  { name := "", ac := 10, thac0 := 20, hpCurrent := 1, hpMax := 1, isAlive := true,
    size := "M", toHitBonus := 0, damageBonus := 0, damageDice := none, weapon := none }

/-- Modelled from the spec: damage reduces HP and the defender dies
(`is_alive` flips false) when HP drops to 0 or below; the flip is reported
back to the attack resolver. -/
def Character.takeDamage (c : Character) (dmg : Int) : Character × Bool :=
  let hp := c.hpCurrent - dmg
  if hp ≤ 0 then ({ c with hpCurrent := hp, isAlive := false }, c.isAlive)
  else ({ c with hpCurrent := hp }, false)

/-- Modelled from the spec: a combatant is incapacitated exactly when no
longer alive. -/
def Character.isIncapacitated (c : Character) : Bool := ¬ c.isAlive

/-- The result dictionary of `CombatResolver.attack_roll`. -/
structure AttackResult where
  hit : Bool
  roll : Nat
  damage : Int
  narrative : String
  defenderDied : Bool
  critical : Option String
deriving DecidableEq, Repr

/-- The weapon magic bonus, `0` when unarmed. -/
def weaponMagic : Option Weapon → Int
  | some w => w.magicBonus
  | none => 0

/-- `CombatResolver._calculate_damage`: weapon dice sized against the
defender (or the attacker's innate dice, or the unarmed `1d2` default),
plus strength and weapon bonuses, doubled in total on a critical, floored
at 1. -/
def calcDamage (att deF : Character) (w : Option Weapon) (critical : Bool) (s : Nat) :
    Int × Nat :=
  let spec :=
    match w with
    | some wp => if deF.size = "S" ∨ deF.size = "M" then wp.damageSm else wp.damageL
    | none =>
      match att.damageDice with
      | some dd => dd
      | none => ⟨1, 2, 0⟩
  let base := rollSpec spec s
  let bonus := att.damageBonus + weaponMagic w
  let total0 := base.1 + bonus
  let total := if critical then total0 * 2 else total0
  (max 1 total, base.2)

/-- `CombatResolver.attack_roll` after the d20 has been drawn. -/
def attackRollCore (att deF : Character) (w : Option Weapon) (roll : Nat) (s : Nat) :
    (AttackResult × Character) × Nat :=
  if roll = 1 then
    (({ hit := false, roll := 1, damage := 0,
        narrative := att.name ++ " fumbles the attack!",
        defenderDied := false, critical := some "miss" }, deF), s)
  else if roll = 20 then
    let dmg := calcDamage att deF w true s
    let td := deF.takeDamage dmg.1
    let narr0 := att.name ++ " scores a CRITICAL HIT on " ++ deF.name ++ " for " ++
      toString dmg.1 ++ " damage!"
    let narr := if td.2 then narr0 ++ " " ++ deF.name ++ " falls dead!" else narr0
    (({ hit := true, roll := 20, damage := dmg.1, narrative := narr,
        defenderDied := td.2, critical := some "hit" }, td.1), dmg.2)
  else
    let targetNumber := att.thac0 - deF.ac
    let adjusted := (roll : Int) + (att.toHitBonus + weaponMagic w)
    if targetNumber ≤ adjusted then
      let dmg := calcDamage att deF w false s
      let td := deF.takeDamage dmg.1
      let narr0 := att.name ++ " hits " ++ deF.name ++ " for " ++ toString dmg.1 ++ " damage!"
      let narr := if td.2 then narr0 ++ " " ++ deF.name ++ " is slain!" else narr0
      (({ hit := true, roll := roll, damage := dmg.1, narrative := narr,
          defenderDied := td.2, critical := none }, td.1), dmg.2)
    else
      (({ hit := false, roll := roll, damage := 0,
          narrative := att.name ++ " misses " ++ deF.name ++ ".",
          defenderDied := false, critical := none }, deF), s)

/-- `CombatResolver.attack_roll`: draw the d20, then resolve. -/
def attackRoll (att deF : Character) (w : Option Weapon) (s : Nat) :
    (AttackResult × Character) × Nat :=
  let r := randBetween 1 20 s
  attackRollCore att deF w r.1 r.2

/-- Indices of the living defenders (the candidates of `random.choice`). -/
def livingIndices (defenders : List Character) : List Nat :=
  (List.range defenders.length).filter (fun i => (defenders.getD i dummyCharacter).isAlive)

/-- `CombatResolver._process_side_actions`: every living attacker picks a
random living defender and attacks once; the loop breaks as soon as no
living defender remains.  Returns the updated defender side, the action
log, and the random state. -/
def processSide : List Character → List Character → Nat → List Character × (List String × Nat)
  | [], defenders, s => (defenders, ([], s))
  | a :: rest, defenders, s =>
    if a.isIncapacitated then processSide rest defenders s
    else
      let living := livingIndices defenders
      if living.isEmpty then (defenders, ([], s))
      else
        let idx := living.getD (rngOut s % living.length) 0
        let target := defenders.getD idx dummyCharacter
        let r := attackRoll a target a.weapon (rngStep s)
        let defenders1 := defenders.set idx r.1.2
        let restr := processSide rest defenders1 r.2
        (restr.1, (r.1.1.narrative :: restr.2.1, restr.2.2))

/-- The result of `CombatResolver.resolve_combat_round`.  The final side
states are returned explicitly to model the in-place mutation of the
character objects. -/
structure RoundResult where
  partyInit : Nat
  monsterInit : Nat
  actions : List String
  partyWon : Bool
  monstersWon : Bool
  party : List Character
  monsters : List Character
deriving DecidableEq, Repr

/-- `CombatResolver.resolve_combat_round`: side-based d6 initiative (lower
acts first, ties to the party), one side acts, the round ends immediately
if the opposing side is wiped, otherwise the other side acts. -/
def resolveCombatRound (party monsters : List Character) (s : Nat) : RoundResult × Nat :=
  let pi := randBetween 1 6 s
  let mi := randBetween 1 6 pi.2
  if pi.1 ≤ mi.1 then
    let a1 := processSide party monsters mi.2
    if a1.1.all (fun m => ¬ m.isAlive) then
      ({ partyInit := pi.1, monsterInit := mi.1, actions := a1.2.1,
         partyWon := true, monstersWon := false, party := party, monsters := a1.1 }, a1.2.2)
    else
      let a2 := processSide a1.1 party a1.2.2
      ({ partyInit := pi.1, monsterInit := mi.1, actions := a1.2.1 ++ a2.2.1,
         partyWon := false, monstersWon := a2.1.all (fun p => ¬ p.isAlive),
         party := a2.1, monsters := a1.1 }, a2.2.2)
  else
    let a1 := processSide monsters party mi.2
    if a1.1.all (fun p => ¬ p.isAlive) then
      ({ partyInit := pi.1, monsterInit := mi.1, actions := a1.2.1,
         partyWon := false, monstersWon := true, party := a1.1, monsters := monsters }, a1.2.2)
    else
      let a2 := processSide a1.1 monsters a1.2.2
      ({ partyInit := pi.1, monsterInit := mi.1, actions := a1.2.1 ++ a2.2.1,
         partyWon := a2.1.all (fun m => ¬ m.isAlive), monstersWon := false,
         party := a1.1, monsters := a2.1 }, a2.2.2)

/-! ## Player character (`entities/player.py`) and rest/XP systems -/

/-- An inventory item (name and type tag are all the embedded systems
read). -/
structure InvItem where
  name : String
  itemType : String
deriving DecidableEq, Repr

/-- A memorized spell slot. -/
structure SpellSlot where
  level : Nat
  spell : Option String
  isUsed : Bool
deriving DecidableEq, Repr

/-- The player-character record: the progression, inventory and condition
state read by `gain_xp`, `attempt_rest` and the time tracker.  The
CON-derived HP bonus (`get_hp_bonus_per_level` of the missing `Character`
base class) is modelled from the spec as a stored ability-derived bonus. -/
structure Player where
  name : String
  charClass : String
  level : Nat
  xp : Int
  xpToNextLevel : Int
  hpCurrent : Int
  hpMax : Int
  thac0 : Int
  thac0Progress : ℚ
  hpBonusPerLevel : Int
  thiefSkills : List (String × Int)
  inventory : List InvItem
  conditions : List String
  spellsMemorized : List SpellSlot
deriving DecidableEq, Repr

/-- `name.lower().replace('_', ' ')`, the normalization used by inventory
lookups. -/
def pyNormalize (s : String) : String := s.toLower.replace "_" " "

def hasPrefixChars : List Char → List Char → Bool
  | _, [] => true
  | [], _ :: _ => false
  | a :: as, b :: bs => a = b && hasPrefixChars as bs

/-- Python `needle in hay` substring containment. -/
def subStrIn : List Char → List Char → Bool
  | [], needle => needle.isEmpty
  | h :: t, needle => hasPrefixChars (h :: t) needle || subStrIn t needle

/-- `Inventory.get_item`: exact normalized match first, then substring
match. -/
def invGetItem (inv : List InvItem) (query : String) : Option InvItem :=
  let q := pyNormalize query
  match inv.find? (fun it => pyNormalize it.name = q) with
  | some it => some it
  | none => inv.find? (fun it => subStrIn (pyNormalize it.name).data q.data)

/-- `Inventory.remove_item`: remove and return the first exact normalized
match, else the first substring match. -/
def invRemoveItem (inv : List InvItem) (query : String) : Option InvItem × List InvItem :=
  let q := pyNormalize query
  match inv.findIdx? (fun it => pyNormalize it.name = q) with
  | some i => (inv.getD i ⟨"", ""⟩, inv.eraseIdx i)
  | none =>
    match inv.findIdx? (fun it => subStrIn (pyNormalize it.name).data q.data) with
    | some i => (inv.getD i ⟨"", ""⟩, inv.eraseIdx i)
    | none => (none, inv)

/-- `PlayerCharacter.consume_ration`: look up and remove one
`Rations (1 day)` item. -/
def Player.consumeRation (p : Player) : Bool × Player :=
  match invGetItem p.inventory "Rations (1 day)" with
  | some _ => (true, { p with inventory := (invRemoveItem p.inventory "Rations (1 day)").2 })
  | none => (false, p)

/-- Modelled from the spec: healing raises current HP, capped at the
maximum (`Character.heal` of the missing base class). -/
def Player.heal (p : Player) (amount : Int) : Player :=
  { p with hpCurrent := min p.hpMax (p.hpCurrent + amount) }

/-- `PlayerCharacter.restore_spells`: clear every used flag. -/
def Player.restoreSpells (p : Player) : Player :=
  { p with spellsMemorized := p.spellsMemorized.map (fun sl => { sl with isUsed := false }) }

/-- The result dictionary of `RestSystem.attempt_rest`. -/
structure RestResult where
  success : Bool
  hpRecovered : Int
  spellsRestored : Bool
  interrupted : Bool
  narrative : String
deriving DecidableEq, Repr

/-- `RestSystem._recover_hp`: nothing at full HP, otherwise `1d4` capped at
the maximum, reporting the actual recovery. -/
def recoverHp (p : Player) (s : Nat) : (Int × Player) × Nat :=
  if p.hpMax ≤ p.hpCurrent then ((0, p), s)
  else
    let d := randBetween 1 4 s
    let p1 := p.heal (d.1 : Int)
    ((p1.hpCurrent - p.hpCurrent, p1), d.2)

/-- `RestSystem.attempt_rest` (`engine/time_tracker.py`): fail with no
state change on an unsafe location or a missing ration, fail (with the
ration consumed) on a 15% interruption draw, otherwise recover HP, restore
spells and clear exhaustion. -/
def attemptRest (p : Player) (isSafe : Bool) (s : Nat) : (RestResult × Player) × Nat :=
  if ¬ isSafe then
    (({ success := false, hpRecovered := 0, spellsRestored := false, interrupted := false,
        narrative := "This area is too dangerous to rest! You need to find a safer location." },
      p), s)
  else
    let cr := p.consumeRation
    if ¬ cr.1 then
      (({ success := false, hpRecovered := 0, spellsRestored := false, interrupted := false,
          narrative := "You have no rations to eat! You need food to rest properly." },
        cr.2), s)
    else
      let u := nextUnit s
      if u.1 < mkRat 15 100 then
        (({ success := false, hpRecovered := 0, spellsRestored := false, interrupted := true,
            narrative := "Your rest is interrupted by wandering monsters!" },
          cr.2), u.2)
      else
        let rh := recoverHp cr.2 u.2
        let p2 := rh.1.2.restoreSpells
        let p3 :=
          if p2.conditions.contains "exhausted" then
            { p2 with conditions := p2.conditions.erase "exhausted" }
          else p2
        let narrative :=
          "You rest for 8 hours and eat your rations.\n" ++
          "HP restored: " ++ toString rh.1.1 ++ "\n" ++
          (if p3.spellsMemorized.isEmpty then "" else "Spells memorized and ready.\n") ++
          "You feel refreshed and ready to continue."
        (({ success := true, hpRecovered := rh.1.1, spellsRestored := true, interrupted := false,
            narrative := narrative }, p3), rh.2)

/-! ### Experience and level-up (`PlayerCharacter.gain_xp` / `_level_up`) -/

/-- The AD&D 1e XP thresholds (`XP_TABLES`). -/
def xpTableFor (cls : String) : Option (List Int) :=
  if cls = "Fighter" then
    some [0, 2000, 4000, 8000, 16000, 32000, 64000, 125000, 250000, 500000, 750000]
  else if cls = "Cleric" then
    some [0, 1500, 3000, 6000, 13000, 27500, 55000, 110000, 225000, 450000, 675000]
  else if cls = "Magic-User" then
    some [0, 2500, 5000, 10000, 22500, 40000, 60000, 90000, 135000, 250000, 375000]
  else if cls = "Thief" then
    some [0, 1250, 2500, 5000, 10000, 20000, 40000, 70000, 110000, 160000, 220000]
  else none

/-- The per-class hit-die size (`hit_dice_map`, default `d6`). -/
def hitDieFor (cls : String) : Nat :=
  if cls = "Fighter" then 10
  else if cls = "Cleric" then 8
  else if cls = "Magic-User" then 4
  else if cls = "Thief" then 6
  else 6

/-- The magnitude of the per-level THAC0 progression (`thac0_progression`,
default `0.5`). -/
def thac0ProgressionFor (cls : String) : ℚ :=
  if cls = "Fighter" then 1
  else if cls = "Cleric" then mkRat 67 100
  else if cls = "Magic-User" then mkRat 33 100
  else if cls = "Thief" then mkRat 1 2
  else mkRat 1 2

/-- The thief skill increments gained per level (`skill_gains`). -/
def thiefSkillGains : List (String × Int) :=
  [("pick_pockets", 5), ("open_locks", 5), ("find_traps", 5), ("move_silently", 5),
   ("hide_in_shadows", 5), ("hear_noise", 5), ("climb_walls", 1), ("read_languages", 5)]

def titleChars : List Char → Bool → List Char
  | [], _ => []
  | c :: t, prevAlpha => (if prevAlpha then c.toLower else c.toUpper) :: titleChars t c.isAlpha

/-- `str.title()`. -/
def pyTitle (s : String) : String := String.mk (titleChars s.data false)

/-- `PlayerCharacter._level_up`: raise the level, roll the class hit die
(plus CON bonus, floored at a gain of 1), advance the fractional THAC0
accumulator (improving THAC0 by the accumulated whole points), improve
thief skills, and recompute the next-level threshold. -/
def levelUp (p : Player) (s : Nat) : (Player × Option String) × Nat :=
  let newLevel := p.level + 1
  let hd := rollSpec ⟨1, hitDieFor p.charClass, 0⟩ s
  let conBonus := p.hpBonusPerLevel
  let hpGain :=
    if conBonus > 0 then hd.1 + conBonus
    else if conBonus < 0 then max 1 (hd.1 + conBonus)
    else hd.1
  let progress := p.thac0Progress + thac0ProgressionFor p.charClass
  let improved := (1 : ℚ) ≤ progress
  let improvement : Int := if improved then ⌊progress⌋ else 0
  let newThac0 := if improved then p.thac0 - improvement else p.thac0
  let newProgress := if improved then progress - (improvement : ℚ) else progress
  let newSkills :=
    if p.charClass = "Thief" then
      p.thiefSkills.map (fun kv =>
        match thiefSkillGains.find? (fun g => g.1 = kv.1) with
        | some g => (kv.1, kv.2 + g.2)
        | none => kv)
    else p.thiefSkills
  let newXpNext :=
    match xpTableFor p.charClass with
    | some tbl => if newLevel < tbl.length - 1 then tbl.getD newLevel 0 else 999999999
    | none => p.xpToNextLevel
  let p1 : Player :=
    { p with
      level := newLevel
      hpMax := p.hpMax + hpGain
      hpCurrent := p.hpCurrent + hpGain
      thac0 := newThac0
      thac0Progress := newProgress
      thiefSkills := newSkills
      xpToNextLevel := newXpNext }
  let msg :=
    "\n✨ LEVEL UP! You are now level " ++ toString newLevel ++ "! ✨\n" ++
    "   HP: +" ++ toString hpGain ++ " (now " ++ toString p1.hpMax ++ ")" ++
    (if improved then "\n   THAC0: improved to " ++ toString p1.thac0 else "") ++
    (if p.charClass = "Thief" then
      "\n   Thief Skills Improved:" ++
        String.join (newSkills.map (fun kv =>
          "\n      " ++ pyTitle (kv.1.replace "_" " ") ++ ": (now " ++ toString kv.2 ++ "%)"))
     else "")
  ((p1, some msg), hd.2)

/-- `PlayerCharacter.gain_xp`: accumulate XP and level up once when the new
total reaches the next threshold of the class table. -/
def gainXp (p : Player) (amount : Int) (s : Nat) : (Player × Option String) × Nat :=
  let p1 : Player := { p with xp := p.xp + amount }
  match xpTableFor p1.charClass with
  | none => ((p1, none), s)
  | some tbl =>
    if p1.level < tbl.length - 1 then
      if tbl.getD p1.level 0 ≤ p1.xp then levelUp p1 s
      else ((p1, none), s)
    else ((p1, none), s)

/-! ## Derived quantities and concrete fixtures used by the verification -/

/-- Number of assigned exits of a room. -/
def exitCount (rm : RoomData) : Nat :=
  (allDirs.filter (fun d => (rm.exits d).isSome)).length

/-- A 7-room branching configuration. -/
def cfg7 : DungeonConfig := { numRooms := 7, layoutType := "branching", seed := some 1 }

/-- A minimal 3-room linear configuration with a fixed seed. -/
def cfgL : DungeonConfig := { numRooms := 3, layoutType := "linear", seed := some 42 }

/-- A configuration whose encounter frequencies sum to `13/10`. -/
def overFreqConfig : DungeonConfig :=
  { combatFrequency := mkRat 7 10, trapFrequency := mkRat 3 10, emptyRoomFrequency := mkRat 3 10 }

/-- A concrete attacker. -/
def wAtt : Character :=
  { name := "Attacker", ac := 10, thac0 := 18, hpCurrent := 10, hpMax := 10, isAlive := true,
    size := "M", toHitBonus := 0, damageBonus := 0, damageDice := none, weapon := none }

/-- A concrete defender. -/
def wDef : Character :=
  { name := "Defender", ac := 5, hpCurrent := 10, hpMax := 10, thac0 := 20, isAlive := true,
    size := "M", toHitBonus := 0, damageBonus := 0, damageDice := none, weapon := none }

/-- A fragile one-hit-point monster. -/
def wMonster : Character :=
  { name := "Goblin", ac := 10, thac0 := 20, hpCurrent := 1, hpMax := 1, isAlive := true,
    size := "S", toHitBonus := 0, damageBonus := 0, damageDice := some ⟨1, 6, 0⟩, weapon := none }

/-- A concrete level-1 Fighter one XP short of the level-2 threshold. -/
def wPlayer : Player :=
  { name := "Tordek", charClass := "Fighter", level := 1, xp := 1999, xpToNextLevel := 2000,
    hpCurrent := 9, hpMax := 9, thac0 := 20, thac0Progress := 0, hpBonusPerLevel := 0,
    thiefSkills := [], inventory := [⟨"Rations (1 day)", "generic"⟩], conditions := [],
    spellsMemorized := [] }

/-- The invariant maintained by the exit-assignment pass: exit maps are
symmetric, an assigned direction is no longer available, only cardinal
directions are ever assigned or available, and availability lists stay
duplicate-free. -/
structure ExInv (st : ExitsState) : Prop where
  sym : ∀ r d t, st.exits r d = some t → st.exits t d.opposite = some r
  noAvail : ∀ r d, (st.exits r d).isSome → d ∉ st.avail r
  exCard : ∀ r d, (st.exits r d).isSome → d ∈ cardinalDirs
  availSub : ∀ r, st.avail r ⊆ cardinalDirs
  availNodup : ∀ r, (st.avail r).Nodup

/-! ## Theorems -/

/-! ### Helper lemmas -/

theorem opposite_opposite (d : Dir) : d.opposite.opposite = d := by
  cases d <;> rfl

theorem opposite_ne (d : Dir) : d.opposite ≠ d := by
  cases d <;> simp [Dir.opposite]

theorem opposite_inj {d e : Dir} (h : d.opposite = e.opposite) : d = e := by
  have := congrArg Dir.opposite h
  rwa [opposite_opposite, opposite_opposite] at this

theorem opposite_cardinal {d : Dir} (h : d ∈ cardinalDirs) : d.opposite ∈ cardinalDirs := by
  cases d <;> simp_all [cardinalDirs, Dir.opposite]

theorem randBetween_bounds (a b s : Nat) (h : a ≤ b) :
    a ≤ (randBetween a b s).1 ∧ (randBetween a b s).1 ≤ b := by
  unfold randBetween
  constructor
  · exact Nat.le_add_right a _
  · have := Nat.mod_lt (rngOut s) (y := b - a + 1) (by omega)
    simp only
    omega

theorem rollSpec_one_die_pos (size s : Nat) (h : 1 ≤ size) :
    1 ≤ (rollSpec ⟨1, size, 0⟩ s).1 := by
  unfold rollSpec rollSum rollSum
  have := (randBetween_bounds 1 size s h).1
  simp only
  omega

/-! ### C8 — rest failure on an unsafe location -/

/-- C8: `attempt_rest` on an unsafe location returns `success=false`,
`hp_recovered=0`, `interrupted=false`, and leaves the player (inventory,
rations, HP, conditions) and the random state completely untouched; no
time-tracking state is involved anywhere in `attempt_rest`. -/
theorem attempt_rest_unsafe_unchanged (p : Player) (s : Nat) :
    attemptRest p false s =
      (({ success := false, hpRecovered := 0, spellsRestored := false, interrupted := false,
          narrative := "This area is too dangerous to rest! You need to find a safer location." },
        p), s) := rfl

/-! ### C6 — configuration validation at construction -/

/-- C6: constructing a `DungeonConfig` whose encounter frequencies sum
above `1.0`, or whose room count is below 3, fails at construction with a
`ValueError`; no clamped configuration value is ever produced. -/
theorem config_validation_rejects (c : DungeonConfig)
    (h : 1 < c.combatFrequency + c.trapFrequency + c.emptyRoomFrequency ∨ c.numRooms < 3) :
    ∃ msg, validateConfig c = Except.error msg := by
  unfold validateConfig
  by_cases h3 : c.numRooms < 3
  · exact ⟨_, by rw [if_pos h3]⟩
  · rcases h with h | h
    · exact ⟨_, by rw [if_neg h3, if_pos h]⟩
    · exact absurd h h3

theorem config_validation_rejects_witness :
    ∃ msg, validateConfig overFreqConfig = Except.error msg :=
  config_validation_rejects overFreqConfig
    (Or.inl (by norm_num [overFreqConfig, Rat.mkRat_eq_div]))

/-! ### C2 — seeded generation is deterministic -/

/-- C2: when `config.seed` is set, `generate` reseeds its random source
from the seed, so two calls with the same config produce identical
dungeons (same graph, exits, encounters, treasure, titles and
descriptions) regardless of the generator state each call starts from. -/
theorem generate_seed_deterministic (c : DungeonConfig) (n : Int) (s1 s2 : Nat)
    (h : c.seed = some n) : generate s1 c = generate s2 c := by
  unfold generate
  rw [h]

theorem generate_seed_deterministic_witness : generate 0 cfgL = generate 1 cfgL :=
  generate_seed_deterministic cfgL 42 0 1 rfl

/-! ### C7 — malformed dice notation -/

/-- C7 (code behaviour at the failing input): `DiceRoller.roll` uses
`re.match`, a prefix match, so the malformed notation `"1d6abc"` is
silently accepted and rolled as `1d6` instead of raising a parse error. -/
theorem dice_roll_trailing_garbage (s : Nat) :
    (pyRoll "1d6abc" s).1 = Except.ok (rollSpec ⟨1, 6, 0⟩ s).1 := rfl

/-! ### C3 — THAC0 attack-roll decision -/

/-- C3: the attack roll decides a hit exactly by the THAC0 rule: a natural
1 always misses with zero damage, a natural 20 always hits, and a natural
roll of 2–19 hits iff `roll + to-hit bonus + weapon magic bonus (0 when
unarmed)` is at least `attacker.THAC0 − defender.AC`. -/
theorem attack_roll_hit_rule (att deF : Character) (w : Option Weapon) (roll s : Nat)
    (h1 : 1 ≤ roll) (h2 : roll ≤ 20) :
    (roll = 1 → (attackRollCore att deF w roll s).1.1.hit = false ∧
      (attackRollCore att deF w roll s).1.1.damage = 0) ∧
    (roll = 20 → (attackRollCore att deF w roll s).1.1.hit = true) ∧
    (2 ≤ roll → roll ≤ 19 →
      ((attackRollCore att deF w roll s).1.1.hit = true ↔
        att.thac0 - deF.ac ≤ (roll : Int) + (att.toHitBonus + weaponMagic w))) := by
  refine ⟨?_, ?_, ?_⟩
  · intro hr; subst hr; simp [attackRollCore]
  · intro hr; subst hr; simp [attackRollCore]
  · intro ha hb
    have hne1 : ¬ (roll = 1) := by omega
    have hne20 : ¬ (roll = 20) := by omega
    simp only [attackRollCore, if_neg hne1, if_neg hne20]
    by_cases hc : att.thac0 - deF.ac ≤ (roll : Int) + (att.toHitBonus + weaponMagic w)
    · rw [if_pos hc]; simpa using hc
    · rw [if_neg hc]; simpa using hc

theorem attack_roll_hit_rule_witness :
    (1 ≤ 13 ∧ 13 ≤ 20) ∧
    ((13 = 1 → (attackRollCore wAtt wDef none 13 0).1.1.hit = false ∧
      (attackRollCore wAtt wDef none 13 0).1.1.damage = 0) ∧
    (13 = 20 → (attackRollCore wAtt wDef none 13 0).1.1.hit = true) ∧
    (2 ≤ 13 → 13 ≤ 19 →
      ((attackRollCore wAtt wDef none 13 0).1.1.hit = true ↔
        wAtt.thac0 - wDef.ac ≤ (13 : Int) + (wAtt.toHitBonus + weaponMagic none)))) :=
  ⟨⟨by decide, by decide⟩, attack_roll_hit_rule wAtt wDef none 13 0 (by decide) (by decide)⟩

/-! ### C9 — Fighter level-up crossing the 2000 XP threshold -/

theorem levelUp_fighter (p : Player) (s : Nat) (hc : p.charClass = "Fighter")
    (hq0 : 0 ≤ p.thac0Progress) (hq1 : p.thac0Progress < 1) :
    ((levelUp p s).1.1).level = p.level + 1 ∧
    p.hpMax + 1 ≤ ((levelUp p s).1.1).hpMax ∧
    ((levelUp p s).1.1).thac0 = p.thac0 - 1 := by
  have hprog : thac0ProgressionFor p.charClass = 1 := by rw [hc]; rfl
  have hdie : hitDieFor p.charClass = 10 := by rw [hc]; rfl
  have himp : (1 : ℚ) ≤ p.thac0Progress + thac0ProgressionFor p.charClass := by
    rw [hprog]; linarith
  have hfl : ⌊p.thac0Progress + thac0ProgressionFor p.charClass⌋ = (1 : ℤ) := by
    rw [hprog, Int.floor_add_one, Int.floor_eq_zero_iff.mpr ⟨hq0, hq1⟩]
    norm_num
  have hroll : 1 ≤ (rollSpec ⟨1, hitDieFor p.charClass, 0⟩ s).1 := by
    rw [hdie]; exact rollSpec_one_die_pos 10 s (by omega)
  refine ⟨?_, ?_, ?_⟩
  · simp [levelUp]
  · simp only [levelUp]
    rcases lt_trichotomy p.hpBonusPerLevel 0 with h | h | h
    · rw [if_neg (by omega), if_pos h]
      have := le_max_left 1 ((rollSpec ⟨1, hitDieFor p.charClass, 0⟩ s).1 + p.hpBonusPerLevel)
      omega
    · rw [if_neg (by omega), if_neg (by omega)]
      omega
    · rw [if_pos h]
      omega
  · simp only [levelUp, if_pos himp, hfl]

/-- C9: a level-1 Fighter below the 2000 XP level-2 threshold who gains
enough XP to reach it ends at level 2, with maximum HP increased by at
least 1 and THAC0 lowered by exactly 1 (the Fighter accumulator gains a
whole point every level). -/
theorem fighter_level_up_crossing (p : Player) (amount : Int) (s : Nat)
    (hc : p.charClass = "Fighter") (hl : p.level = 1)
    (hlow : p.xp < 2000) (hcross : 2000 ≤ p.xp + amount)
    (hq0 : 0 ≤ p.thac0Progress) (hq1 : p.thac0Progress < 1) :
    ((gainXp p amount s).1.1).level = 2 ∧
    p.hpMax + 1 ≤ ((gainXp p amount s).1.1).hpMax ∧
    ((gainXp p amount s).1.1).thac0 = p.thac0 - 1 := by
  have hgx : gainXp p amount s = levelUp { p with xp := p.xp + amount } s := by
    simp only [gainXp, hc, xpTableFor, hl]
    norm_num
    intro h
    exact absurd hcross (by omega)
  rw [hgx]
  obtain ⟨hA, hB, hC⟩ := levelUp_fighter { p with xp := p.xp + amount } s hc hq0 hq1
  refine ⟨?_, ?_, ?_⟩
  · rw [hA]; simp [hl]
  · exact hB
  · exact hC

theorem fighter_level_up_crossing_witness :
    ((gainXp wPlayer 1 0).1.1).level = 2 ∧
    wPlayer.hpMax + 1 ≤ ((gainXp wPlayer 1 0).1.1).hpMax ∧
    ((gainXp wPlayer 1 0).1.1).thac0 = wPlayer.thac0 - 1 :=
  fighter_level_up_crossing wPlayer 1 0 rfl rfl (by norm_num [wPlayer])
    (by norm_num [wPlayer]) (by norm_num [wPlayer]) (by norm_num [wPlayer])

/-! ### C5 — initiative order and mid-round early exit -/

/-- C5: `resolve_combat_round` orders the sides by their d6 initiative —
the lower roll acts first, ties letting side A, the party, act first — and
then, case by case: when the first side to act wipes the opposing side the
round result is returned immediately (the action log holds only the first
side's attacks, the second side's state is untouched, and no further
random draws happen); otherwise the second side acts on the updated state
and the round result combines both action logs. -/
theorem combat_round_order_and_early_exit (party monsters : List Character) (s : Nat) :
    ((randBetween 1 6 s).1 ≤ (randBetween 1 6 (randBetween 1 6 s).2).1 →
      (processSide party monsters (randBetween 1 6 (randBetween 1 6 s).2).2).1.all
          (fun m => ¬ m.isAlive) = true →
      resolveCombatRound party monsters s =
        ({ partyInit := (randBetween 1 6 s).1,
           monsterInit := (randBetween 1 6 (randBetween 1 6 s).2).1,
           actions := (processSide party monsters (randBetween 1 6 (randBetween 1 6 s).2).2).2.1,
           partyWon := true,
           monstersWon := false,
           party := party,
           monsters := (processSide party monsters (randBetween 1 6 (randBetween 1 6 s).2).2).1 },
         (processSide party monsters (randBetween 1 6 (randBetween 1 6 s).2).2).2.2)) ∧
    ((randBetween 1 6 s).1 ≤ (randBetween 1 6 (randBetween 1 6 s).2).1 →
      (processSide party monsters (randBetween 1 6 (randBetween 1 6 s).2).2).1.all
          (fun m => ¬ m.isAlive) = false →
      resolveCombatRound party monsters s =
        ({ partyInit := (randBetween 1 6 s).1,
           monsterInit := (randBetween 1 6 (randBetween 1 6 s).2).1,
           actions := (processSide party monsters (randBetween 1 6 (randBetween 1 6 s).2).2).2.1 ++
             (processSide
               (processSide party monsters (randBetween 1 6 (randBetween 1 6 s).2).2).1 party
               (processSide party monsters (randBetween 1 6 (randBetween 1 6 s).2).2).2.2).2.1,
           partyWon := false,
           monstersWon := (processSide
               (processSide party monsters (randBetween 1 6 (randBetween 1 6 s).2).2).1 party
               (processSide party monsters (randBetween 1 6 (randBetween 1 6 s).2).2).2.2).1.all
             (fun q => ¬ q.isAlive),
           party := (processSide
               (processSide party monsters (randBetween 1 6 (randBetween 1 6 s).2).2).1 party
               (processSide party monsters (randBetween 1 6 (randBetween 1 6 s).2).2).2.2).1,
           monsters := (processSide party monsters (randBetween 1 6 (randBetween 1 6 s).2).2).1 },
         (processSide
             (processSide party monsters (randBetween 1 6 (randBetween 1 6 s).2).2).1 party
             (processSide party monsters (randBetween 1 6 (randBetween 1 6 s).2).2).2.2).2.2)) ∧
    ((randBetween 1 6 (randBetween 1 6 s).2).1 < (randBetween 1 6 s).1 →
      (processSide monsters party (randBetween 1 6 (randBetween 1 6 s).2).2).1.all
          (fun q => ¬ q.isAlive) = true →
      resolveCombatRound party monsters s =
        ({ partyInit := (randBetween 1 6 s).1,
           monsterInit := (randBetween 1 6 (randBetween 1 6 s).2).1,
           actions := (processSide monsters party (randBetween 1 6 (randBetween 1 6 s).2).2).2.1,
           partyWon := false,
           monstersWon := true,
           party := (processSide monsters party (randBetween 1 6 (randBetween 1 6 s).2).2).1,
           monsters := monsters },
         (processSide monsters party (randBetween 1 6 (randBetween 1 6 s).2).2).2.2)) ∧
    ((randBetween 1 6 (randBetween 1 6 s).2).1 < (randBetween 1 6 s).1 →
      (processSide monsters party (randBetween 1 6 (randBetween 1 6 s).2).2).1.all
          (fun q => ¬ q.isAlive) = false →
      resolveCombatRound party monsters s =
        ({ partyInit := (randBetween 1 6 s).1,
           monsterInit := (randBetween 1 6 (randBetween 1 6 s).2).1,
           actions := (processSide monsters party (randBetween 1 6 (randBetween 1 6 s).2).2).2.1 ++
             (processSide
               (processSide monsters party (randBetween 1 6 (randBetween 1 6 s).2).2).1 monsters
               (processSide monsters party (randBetween 1 6 (randBetween 1 6 s).2).2).2.2).2.1,
           partyWon := (processSide
               (processSide monsters party (randBetween 1 6 (randBetween 1 6 s).2).2).1 monsters
               (processSide monsters party (randBetween 1 6 (randBetween 1 6 s).2).2).2.2).1.all
             (fun m => ¬ m.isAlive),
           monstersWon := false,
           party := (processSide monsters party (randBetween 1 6 (randBetween 1 6 s).2).2).1,
           monsters := (processSide
               (processSide monsters party (randBetween 1 6 (randBetween 1 6 s).2).2).1 monsters
               (processSide monsters party (randBetween 1 6 (randBetween 1 6 s).2).2).2.2).1 },
         (processSide
             (processSide monsters party (randBetween 1 6 (randBetween 1 6 s).2).2).1 monsters
             (processSide monsters party (randBetween 1 6 (randBetween 1 6 s).2).2).2.2).2.2)) := by
  refine ⟨?_, ?_, ?_, ?_⟩
  · intro h1 h2
    simp only [resolveCombatRound]
    rw [if_pos h1, if_pos h2]
  · intro h1 h2
    simp only [resolveCombatRound]
    rw [if_pos h1, if_neg (by simp only [h2]; exact Bool.false_ne_true)]
  · intro h1 h2
    simp only [resolveCombatRound]
    rw [if_neg (Nat.not_le.mpr h1), if_pos h2]
  · intro h1 h2
    simp only [resolveCombatRound]
    rw [if_neg (Nat.not_le.mpr h1), if_neg (by simp only [h2]; exact Bool.false_ne_true)]

theorem combat_round_order_and_early_exit_witness :
    ((randBetween 1 6 0).1 ≤ (randBetween 1 6 (randBetween 1 6 0).2).1) ∧
    ((processSide [wAtt] [wMonster] (randBetween 1 6 (randBetween 1 6 0).2).2).1.all
        (fun m => ¬ m.isAlive) = true) ∧
    resolveCombatRound [wAtt] [wMonster] 0 =
      ({ partyInit := (randBetween 1 6 0).1,
         monsterInit := (randBetween 1 6 (randBetween 1 6 0).2).1,
         actions := (processSide [wAtt] [wMonster] (randBetween 1 6 (randBetween 1 6 0).2).2).2.1,
         partyWon := true,
         monstersWon := false,
         party := [wAtt],
         monsters := (processSide [wAtt] [wMonster] (randBetween 1 6 (randBetween 1 6 0).2).2).1 },
       (processSide [wAtt] [wMonster] (randBetween 1 6 (randBetween 1 6 0).2).2).2.2) ∧
    ((randBetween 1 6 1).1 ≤ (randBetween 1 6 (randBetween 1 6 1).2).1) ∧
    ((processSide [wAtt] [wMonster] (randBetween 1 6 (randBetween 1 6 1).2).2).1.all
        (fun m => ¬ m.isAlive) = false) ∧
    resolveCombatRound [wAtt] [wMonster] 1 =
      ({ partyInit := (randBetween 1 6 1).1,
         monsterInit := (randBetween 1 6 (randBetween 1 6 1).2).1,
         actions := (processSide [wAtt] [wMonster] (randBetween 1 6 (randBetween 1 6 1).2).2).2.1 ++
           (processSide
             (processSide [wAtt] [wMonster] (randBetween 1 6 (randBetween 1 6 1).2).2).1 [wAtt]
             (processSide [wAtt] [wMonster] (randBetween 1 6 (randBetween 1 6 1).2).2).2.2).2.1,
         partyWon := false,
         monstersWon := (processSide
             (processSide [wAtt] [wMonster] (randBetween 1 6 (randBetween 1 6 1).2).2).1 [wAtt]
             (processSide [wAtt] [wMonster] (randBetween 1 6 (randBetween 1 6 1).2).2).2.2).1.all
           (fun q => ¬ q.isAlive),
         party := (processSide
             (processSide [wAtt] [wMonster] (randBetween 1 6 (randBetween 1 6 1).2).2).1 [wAtt]
             (processSide [wAtt] [wMonster] (randBetween 1 6 (randBetween 1 6 1).2).2).2.2).1,
         monsters := (processSide [wAtt] [wMonster] (randBetween 1 6 (randBetween 1 6 1).2).2).1 },
       (processSide
           (processSide [wAtt] [wMonster] (randBetween 1 6 (randBetween 1 6 1).2).2).1 [wAtt]
           (processSide [wAtt] [wMonster] (randBetween 1 6 (randBetween 1 6 1).2).2).2.2).2.2) :=
  ⟨by decide, by decide,
    (combat_round_order_and_early_exit [wAtt] [wMonster] 0).1 (by decide) (by decide),
    by decide, by decide,
    (combat_round_order_and_early_exit [wAtt] [wMonster] 1).2.1 (by decide) (by decide)⟩

/-! ### C4 — branching-layout main chain -/

theorem addBranchRooms_counter_le (N par : Nat) :
    ∀ n j st k, k ≤ st.counter → k ≤ (addBranchRooms N par n j st).counter := by
  intro n
  induction n with
  | zero => intro j st k hk; exact hk
  | succ m ih =>
    intro j st k hk
    unfold addBranchRooms
    split
    · exact hk
    · dsimp only
      exact ih (j + 1) _ k (le_trans hk (Nat.le_succ _))

theorem addBranchRooms_adj_mono (N par : Nat) :
    ∀ n j st x v, x < st.counter → v ∈ st.adj x →
      v ∈ (addBranchRooms N par n j st).adj x := by
  intro n
  induction n with
  | zero => intro j st x v _ hv; exact hv
  | succ m ih =>
    intro j st x v hx hv
    unfold addBranchRooms
    split
    · exact hv
    · dsimp only
      apply ih (j + 1) _ x v (Nat.lt_succ_of_lt hx)
      dsimp only
      rw [if_neg (by omega : ¬ x = st.counter)]
      by_cases hxl : x = if j = 0 then par else st.counter - 1
      · rw [if_pos hxl]
        exact List.mem_append_left _ hv
      · rw [if_neg hxl]
        exact hv

theorem addBranchRooms_ids_mono (N par : Nat) :
    ∀ n j st r, r ∈ st.ids → r ∈ (addBranchRooms N par n j st).ids := by
  intro n
  induction n with
  | zero => intro j st r hr; exact hr
  | succ m ih =>
    intro j st r hr
    unfold addBranchRooms
    split
    · exact hr
    · dsimp only
      exact ih (j + 1) _ r (List.mem_append_left _ hr)

theorem addBranchRooms_ids_bound (N par : Nat) :
    ∀ n j st, (∀ r ∈ st.ids, 1 ≤ r ∧ r ≤ N) → 1 ≤ st.counter →
      ∀ r ∈ (addBranchRooms N par n j st).ids, 1 ≤ r ∧ r ≤ N := by
  intro n
  induction n with
  | zero => intro j st h _ r hr; exact h r hr
  | succ m ih =>
    intro j st h h1 r hr
    unfold addBranchRooms at hr
    by_cases hg : N < st.counter
    · rw [if_pos hg] at hr
      exact h r hr
    · rw [if_neg hg] at hr
      dsimp only at hr
      refine ih (j + 1) _ ?_ (Nat.le_add_left 1 st.counter) r hr
      intro q hq
      rcases List.mem_append.mp hq with hq | hq
      · exact h q hq
      · have : q = st.counter := by simpa using hq
        omega

theorem branchStep_counter_mono (N : Nat) (acc : BranchSt × Nat) (bp : Nat) :
    acc.1.counter ≤ (branchStep N acc bp).1.counter := by
  unfold branchStep
  split
  · exact le_refl _
  · exact addBranchRooms_counter_le N bp _ 0 acc.1 _ (le_refl _)

theorem branchStep_adj_mono (N : Nat) (acc : BranchSt × Nat) (bp x v : Nat)
    (hx : x < acc.1.counter) (hv : v ∈ acc.1.adj x) :
    v ∈ (branchStep N acc bp).1.adj x := by
  unfold branchStep
  split
  · exact hv
  · exact addBranchRooms_adj_mono N bp _ 0 acc.1 x v hx hv

theorem branchStep_ids_mono (N : Nat) (acc : BranchSt × Nat) (bp r : Nat)
    (hr : r ∈ acc.1.ids) : r ∈ (branchStep N acc bp).1.ids := by
  unfold branchStep
  split
  · exact hr
  · exact addBranchRooms_ids_mono N bp _ 0 acc.1 r hr

theorem branchStep_ids_bound (N : Nat) (acc : BranchSt × Nat) (bp : Nat)
    (h : ∀ r ∈ acc.1.ids, 1 ≤ r ∧ r ≤ N) (h1 : 1 ≤ acc.1.counter) :
    ∀ r ∈ (branchStep N acc bp).1.ids, 1 ≤ r ∧ r ≤ N := by
  unfold branchStep
  split
  · exact h
  · exact addBranchRooms_ids_bound N bp _ 0 acc.1 h h1

theorem foldl_branchStep_counter (N : Nat) (bps : List Nat) :
    ∀ acc : BranchSt × Nat, acc.1.counter ≤ (bps.foldl (branchStep N) acc).1.counter := by
  induction bps with
  | nil => intro acc; exact le_refl _
  | cons bp t ih =>
    intro acc
    rw [List.foldl_cons]
    exact le_trans (branchStep_counter_mono N acc bp) (ih _)

theorem foldl_branchStep_adj (N : Nat) (bps : List Nat) :
    ∀ (acc : BranchSt × Nat) (x v : Nat), x < acc.1.counter → v ∈ acc.1.adj x →
      v ∈ (bps.foldl (branchStep N) acc).1.adj x := by
  induction bps with
  | nil => intro acc x v _ hv; exact hv
  | cons bp t ih =>
    intro acc x v hx hv
    rw [List.foldl_cons]
    exact ih _ x v (lt_of_lt_of_le hx (branchStep_counter_mono N acc bp))
      (branchStep_adj_mono N acc bp x v hx hv)

theorem foldl_branchStep_ids (N : Nat) (bps : List Nat) :
    ∀ (acc : BranchSt × Nat) (r : Nat), r ∈ acc.1.ids →
      r ∈ (bps.foldl (branchStep N) acc).1.ids := by
  induction bps with
  | nil => intro acc r hr; exact hr
  | cons bp t ih =>
    intro acc r hr
    rw [List.foldl_cons]
    exact ih _ r (branchStep_ids_mono N acc bp r hr)

theorem foldl_branchStep_ids_bound (N : Nat) (bps : List Nat) :
    ∀ acc : BranchSt × Nat, (∀ r ∈ acc.1.ids, 1 ≤ r ∧ r ≤ N) → 1 ≤ acc.1.counter →
      ∀ r ∈ (bps.foldl (branchStep N) acc).1.ids, 1 ≤ r ∧ r ≤ N := by
  induction bps with
  | nil => intro acc h _; exact h
  | cons bp t ih =>
    intro acc h h1
    rw [List.foldl_cons]
    exact ih _ (branchStep_ids_bound N acc bp h h1)
      (le_trans h1 (branchStep_counter_mono N acc bp))

/-- C4 counterexample: with 7 rooms, `⌈0.6·7⌉ = 5`, so the claim requires
rooms 4 and 5 to be adjacent links of the main chain; the code truncates
(`int(7·0.6) = 4`), the chain is rooms 1–4, and room 5 is a branch room
attached to an interior chain point, so neither direction of the 4–5 chain
edge exists. -/
theorem branching_ceil_chain_counterexample :
    ¬ (5 ∈ (branchingLayout cfg7 0).1.adj 4 ∧ 4 ∈ (branchingLayout cfg7 0).1.adj 5) := by
  decide

/-- C4 (amended): for a valid branching config the main chain consists of
rooms `1 .. max(3, ⌊0.6·N⌋)`, each connected to its immediate numeric
neighbours in the chain, and every room of the graph (the branch rooms
included) stays within the room budget `1 .. N`. -/
theorem branching_main_chain_floor (c : DungeonConfig) (s : Nat) (hN : 3 ≤ c.numRooms) :
    (∀ i, 1 ≤ i → i < mainChainLen c.numRooms →
      (i + 1) ∈ (branchingLayout c s).1.adj i ∧ i ∈ (branchingLayout c s).1.adj (i + 1)) ∧
    (∀ j, 1 ≤ j → j ≤ mainChainLen c.numRooms → j ∈ (branchingLayout c s).1.ids) ∧
    (∀ r ∈ (branchingLayout c s).1.ids, 1 ≤ r ∧ r ≤ c.numRooms) := by
  have hLle : mainChainLen c.numRooms ≤ c.numRooms := by
    unfold mainChainLen
    omega
  simp only [branchingLayout]
  refine ⟨?_, ?_, ?_⟩
  · intro i h1 h2
    constructor
    · apply foldl_branchStep_adj
      · simpa using Nat.lt_succ_of_le (le_of_lt h2)
      · dsimp only
        refine List.mem_append.mpr (Or.inr ?_)
        rw [if_pos ⟨h1, h2⟩]
        simp
    · apply foldl_branchStep_adj
      · simpa using Nat.lt_succ_of_le h2
      · dsimp only
        refine List.mem_append.mpr (Or.inl ?_)
        rw [if_pos (show 1 < i + 1 ∧ i + 1 ≤ mainChainLen c.numRooms by omega)]
        simp
  · intro j h1 h2
    apply foldl_branchStep_ids
    dsimp only
    refine List.mem_map.mpr ⟨j - 1, ?_, by omega⟩
    rw [List.mem_range]
    omega
  · apply foldl_branchStep_ids_bound
    · intro r hr
      dsimp only at hr
      rcases List.mem_map.mp hr with ⟨k, hk, rfl⟩
      rw [List.mem_range] at hk
      omega
    · dsimp only
      omega

theorem branching_main_chain_floor_witness :
    3 ≤ cfg7.numRooms ∧ 4 ∈ (branchingLayout cfg7 0).1.adj 3 :=
  ⟨by decide,
    ((branching_main_chain_floor cfg7 0 (by decide)).1 3 (by decide) (by decide)).1⟩

/-! ### C1 and C10 — exit-assignment invariants -/

theorem chooseDir_mem (avail : Nat → List Dir) (room conn : Nat) (d : Dir)
    (h : chooseDir avail room conn = some d) :
    d ∈ avail room ∧ d.opposite ∈ avail conn := by
  have hfb : ∀ e : Dir,
      (avail room).find? (fun x => decide (x.opposite ∈ avail conn)) = some e →
      e ∈ avail room ∧ e.opposite ∈ avail conn := by
    intro e he
    refine ⟨List.mem_of_find?_eq_some he, ?_⟩
    have := List.find?_some he
    simpa using this
  simp only [chooseDir] at h
  by_cases h1 : conn < room
  · rw [if_pos h1] at h
    by_cases h2 : Dir.south ∈ avail room ∧ Dir.north ∈ avail conn
    · rw [if_pos h2] at h
      injection h with h
      subst h
      exact ⟨h2.1, h2.2⟩
    · rw [if_neg h2] at h
      by_cases h3 : Dir.west ∈ avail room ∧ Dir.east ∈ avail conn
      · rw [if_pos h3] at h
        injection h with h
        subst h
        exact ⟨h3.1, h3.2⟩
      · rw [if_neg h3] at h
        exact hfb d h
  · rw [if_neg h1] at h
    by_cases h2 : Dir.north ∈ avail room ∧ Dir.south ∈ avail conn
    · rw [if_pos h2] at h
      injection h with h
      subst h
      exact ⟨h2.1, h2.2⟩
    · rw [if_neg h2] at h
      by_cases h3 : Dir.east ∈ avail room ∧ Dir.west ∈ avail conn
      · rw [if_pos h3] at h
        injection h with h
        subst h
        exact ⟨h3.1, h3.2⟩
      · rw [if_neg h3] at h
        exact hfb d h

theorem applyEdge_inv (st : ExitsState) (room conn : Nat) (h : ExInv st) :
    ExInv (applyEdge st room conn) := by
  unfold applyEdge
  split
  · exact h
  · dsimp only
    split
    · exact ⟨h.sym, h.noAvail, h.exCard, h.availSub, h.availNodup⟩
    · rename_i d hcd
      obtain ⟨hdm, hodm⟩ := chooseDir_mem _ room conn d hcd
      have hsub : ∀ r : Nat,
          (if r = conn then
            ((if conn = room then (st.avail room).erase d else st.avail conn).erase d.opposite)
           else if r = room then (st.avail room).erase d
           else st.avail r) ⊆ st.avail r := by
        intro r x hx
        by_cases hrc : r = conn
        · rw [if_pos hrc] at hx
          subst hrc
          by_cases hcr : r = room
          · rw [if_pos hcr] at hx
            rw [hcr]
            exact (List.erase_sublist _ _).subset ((List.erase_sublist _ _).subset hx)
          · rw [if_neg hcr] at hx
            exact (List.erase_sublist _ _).subset hx
        · rw [if_neg hrc] at hx
          by_cases hrr : r = room
          · rw [if_pos hrr] at hx
            subst hrr
            exact (List.erase_sublist _ _).subset hx
          · rwa [if_neg hrr] at hx
      refine ⟨?_, ?_, ?_, ?_, ?_⟩
      · -- symmetry
        intro r dd t hrt
        dsimp only at hrt ⊢
        by_cases hc1 : r = conn ∧ dd = d.opposite
        · rw [if_pos hc1] at hrt
          injection hrt with hrt
          obtain ⟨he1, he2⟩ := hc1
          subst he1 he2
          subst hrt
          rw [opposite_opposite]
          rw [if_neg (fun hh => opposite_ne d hh.2.symm),
            if_pos ⟨rfl, rfl⟩]
        · rw [if_neg hc1] at hrt
          by_cases hc2 : r = room ∧ dd = d
          · rw [if_pos hc2] at hrt
            injection hrt with hrt
            obtain ⟨he1, he2⟩ := hc2
            subst he1 he2
            subst hrt
            rw [if_pos ⟨rfl, rfl⟩]
          · rw [if_neg hc2] at hrt
            have hold := h.sym r dd t hrt
            have hn1 : ¬ (t = conn ∧ dd.opposite = d.opposite) := by
              rintro ⟨ht, hdo⟩
              have hdd : dd = d := opposite_inj hdo
              apply h.noAvail t dd.opposite (by rw [hold]; rfl)
              rw [ht, hdd]
              exact hodm
            have hn2 : ¬ (t = room ∧ dd.opposite = d) := by
              rintro ⟨ht, hdo⟩
              apply h.noAvail t dd.opposite (by rw [hold]; rfl)
              rw [ht, hdo]
              exact hdm
            rw [if_neg hn1, if_neg hn2]
            exact hold
      · -- assigned directions are consumed
        intro r dd hsome
        dsimp only at hsome ⊢
        intro hmem
        by_cases hc1 : r = conn ∧ dd = d.opposite
        · have hnd : (if conn = room then (st.avail room).erase d else st.avail conn).Nodup := by
            by_cases hcr : conn = room
            · rw [if_pos hcr]
              exact (h.availNodup room).erase d
            · rw [if_neg hcr]
              exact h.availNodup conn
          rw [if_pos hc1.1] at hmem
          exact ((hnd.mem_erase_iff.mp hmem).1) hc1.2
        · by_cases hc2 : r = room ∧ dd = d
          · by_cases hrc : r = conn
            · have hcr : conn = room := by rw [← hrc, hc2.1]
              rw [if_pos hrc, if_pos hcr] at hmem
              have h2 := (List.erase_sublist _ _).subset hmem
              exact (((h.availNodup room).mem_erase_iff.mp h2).1) hc2.2
            · rw [if_neg hrc, if_pos hc2.1] at hmem
              exact (((h.availNodup room).mem_erase_iff.mp hmem).1) hc2.2
          · rw [if_neg hc1, if_neg hc2] at hsome
            exact h.noAvail r dd hsome (hsub r hmem)
      · -- only cardinal directions get assigned
        intro r dd hsome
        dsimp only at hsome
        by_cases hc1 : r = conn ∧ dd = d.opposite
        · exact hc1.2 ▸ opposite_cardinal (h.availSub room hdm)
        · by_cases hc2 : r = room ∧ dd = d
          · exact hc2.2 ▸ h.availSub room hdm
          · rw [if_neg hc1, if_neg hc2] at hsome
            exact h.exCard r dd hsome
      · -- availability stays cardinal
        intro r
        dsimp only
        exact fun x hx => h.availSub r (hsub r hx)
      · -- availability stays duplicate-free
        intro r
        dsimp only
        by_cases hrc : r = conn
        · rw [if_pos hrc]
          by_cases hcr : conn = room
          · rw [if_pos hcr]
            exact (((h.availNodup room).erase d).erase d.opposite)
          · rw [if_neg hcr]
            exact ((h.availNodup conn).erase d.opposite)
        · rw [if_neg hrc]
          by_cases hrr : r = room
          · rw [if_pos hrr]
            exact ((h.availNodup room).erase d)
          · rw [if_neg hrr]
            exact h.availNodup r

theorem freqCount_spec (n : Nat) (q : ℚ) : freqCount n q = (⌊(n : ℚ) * q⌋).toNat := by
  unfold freqCount
  congr 2
  rw [Rat.mkRat_eq_div]
  push_cast
  rw [mul_comm, mul_div_assoc, Rat.num_div_den]

theorem foldl_applyEdge_inv (l : List (Nat × Nat)) :
    ∀ st : ExitsState, ExInv st → ExInv (l.foldl (fun st e => applyEdge st e.1 e.2) st) := by
  induction l with
  | nil => intro st h; exact h
  | cons e t ih =>
    intro st h
    rw [List.foldl_cons]
    exact ih _ (applyEdge_inv st e.1 e.2 h)

theorem assignExits_inv (g : RoomGraph) : ExInv (assignExits g) := by
  unfold assignExits
  apply foldl_applyEdge_inv
  refine ⟨?_, ?_, ?_, ?_, ?_⟩
  · intro r d t h
    simp at h
  · intro r d h
    simp at h
  · intro r d h
    simp at h
  · intro r
    exact fun x hx => hx
  · intro r
    exact (by decide : cardinalDirs.Nodup)

/-! ### Exit preservation through the population stages -/

theorem updateRoom_exits (rs : Rooms) (rid : Nat) (f : RoomData → RoomData)
    (hf : ∀ rm, (f rm).exits = rm.exits) (r : Nat) :
    ((updateRoom rs rid f).data r).exits = (rs.data r).exits := by
  unfold updateRoom
  dsimp only
  by_cases hr : r = rid
  · rw [if_pos hr, hf]
  · rw [if_neg hr]

theorem foldl_rooms_exits {β : Type} (f : Rooms × Nat → β → Rooms × Nat)
    (hf : ∀ acc b r, (((f acc b).1).data r).exits = ((acc.1).data r).exits) :
    ∀ (l : List β) (acc : Rooms × Nat) (r : Nat),
      (((l.foldl f acc).1).data r).exits = ((acc.1).data r).exits := by
  intro l
  induction l with
  | nil => intro acc r; rfl
  | cons b t ih =>
    intro acc r
    rw [List.foldl_cons, ih, hf]

theorem foldl_rooms_exits_plain {β : Type} (f : Rooms → β → Rooms)
    (hf : ∀ acc b r, ((f acc b).data r).exits = (acc.data r).exits) :
    ∀ (l : List β) (acc : Rooms) (r : Nat),
      ((l.foldl f acc).data r).exits = (acc.data r).exits := by
  intro l
  induction l with
  | nil => intro acc r; rfl
  | cons b t ih =>
    intro acc r
    rw [List.foldl_cons, ih, hf]

theorem createRooms_exits (g : RoomGraph) (c : DungeonConfig) (r : Nat) :
    ((createRooms g c).data r).exits = (assignExits g).exits r := by
  unfold createRooms
  dsimp only
  split
  · rfl
  · refine Eq.trans (updateRoom_exits _ _ _ ?_ r) rfl
    intro rm
    rfl

theorem populateEncounters_exits (c : DungeonConfig) (rs : Rooms) (s : Nat) (r : Nat) :
    (((populateEncounters c rs s).1).data r).exits = (rs.data r).exits := by
  unfold populateEncounters
  dsimp only
  refine Eq.trans (foldl_rooms_exits _ ?_ _ _ r) (foldl_rooms_exits _ ?_ _ _ r)
  · intro acc b rr
    dsimp only
    split
    · dsimp only [updateRoom]
      split <;> rfl
    · rfl
  · intro acc b rr
    dsimp only [updateRoom]
    split <;> rfl

theorem placeTreasures_exits (c : DungeonConfig) (rs : Rooms) (s : Nat) (r : Nat) :
    (((placeTreasures c rs s).1).data r).exits = (rs.data r).exits := by
  unfold placeTreasures
  dsimp only
  refine Eq.trans (foldl_rooms_exits _ ?_ _ _ r) (foldl_rooms_exits _ ?_ _ _ r)
  · intro acc b rr
    dsimp only [updateRoom]
    split <;> rfl
  · intro acc b rr
    dsimp only [updateRoom]
    split <;> rfl

theorem designateSafeRooms_exits (c : DungeonConfig) (rs : Rooms) (s : Nat) (r : Nat) :
    (((designateSafeRooms c rs s).1).data r).exits = (rs.data r).exits := by
  unfold designateSafeRooms
  dsimp only
  refine foldl_rooms_exits_plain _ ?_ _ _ r
  intro acc b rr
  refine updateRoom_exits _ _ _ ?_ rr
  intro rm
  rfl

theorem addDescriptions_exits (c : DungeonConfig) (rs : Rooms) (s : Nat) (r : Nat) :
    (((addDescriptions c rs s).1).data r).exits = (rs.data r).exits := by
  unfold addDescriptions
  dsimp only
  refine foldl_rooms_exits _ ?_ _ _ r
  intro acc b rr
  dsimp only
  split
  · dsimp only [updateRoom]
    split <;> rfl
  · dsimp only [updateRoom]
    split <;> rfl

theorem addBoss_exits (c : DungeonConfig) (rs : Rooms) (s : Nat) (r : Nat) :
    (((addBoss c rs s).1).data r).exits = (rs.data r).exits := by
  unfold addBoss
  dsimp only [updateRoom]
  split <;> rfl

theorem generateBody_exits (c : DungeonConfig) (s : Nat) (r : Nat) :
    ((((generateBody c s).1).rooms).data r).exits =
      (assignExits (genRoomGraph c (genName c s).2).1).exits r := by
  unfold generateBody
  dsimp only
  by_cases hb : c.includeBoss = true
  · rw [if_pos hb]
    exact (addBoss_exits _ _ _ r).trans ((addDescriptions_exits _ _ _ r).trans
      ((designateSafeRooms_exits _ _ _ r).trans ((placeTreasures_exits _ _ _ r).trans
        ((populateEncounters_exits _ _ _ r).trans (createRooms_exits _ _ r)))))
  · rw [if_neg hb]
    exact (addDescriptions_exits _ _ _ r).trans
      ((designateSafeRooms_exits _ _ _ r).trans ((placeTreasures_exits _ _ _ r).trans
        ((populateEncounters_exits _ _ _ r).trans (createRooms_exits _ _ r))))

/-- C1: in every generated dungeon the exit map is symmetric — whenever a
room maps a direction to a target room, the target room maps the opposite
compass direction back to the source room. -/
theorem generate_exit_symmetry (ambient : Nat) (c : DungeonConfig) (r t : Nat) (d : Dir)
    (h : ((generate ambient c).rooms.data r).exits d = some t) :
    ((generate ambient c).rooms.data t).exits d.opposite = some r := by
  unfold generate at h ⊢
  rw [generateBody_exits] at h ⊢
  exact (assignExits_inv _).sym r d t h

theorem generate_exit_symmetry_witness :
    ((generate 0 cfgL).rooms.data 1).exits Dir.north = some 2 ∧
    ((generate 0 cfgL).rooms.data 2).exits Dir.north.opposite = some 1 :=
  ⟨by decide, generate_exit_symmetry 0 cfgL 1 2 Dir.north (by decide)⟩

/-- C10: the generator only assigns the four cardinal directions — `up`
and `down` are never assigned even though the data model allows them — and
(the exit map being direction-keyed) a room holds at most one exit per
direction, hence at most 4 exits. -/
theorem generate_exits_cardinal_bounded (ambient : Nat) (c : DungeonConfig) (r : Nat) :
    ((generate ambient c).rooms.data r).exits Dir.up = none ∧
    ((generate ambient c).rooms.data r).exits Dir.down = none ∧
    exitCount ((generate ambient c).rooms.data r) ≤ 4 := by
  have hnc : ∀ d : Dir, d ∉ cardinalDirs →
      ((generate ambient c).rooms.data r).exits d = none := by
    intro d hd
    unfold generate
    rw [generateBody_exits]
    rcases hv : (assignExits (genRoomGraph c (genName c _).2).1).exits r d with _ | v
    · rfl
    · exact absurd ((assignExits_inv _).exCard r d (by rw [hv]; rfl)) hd
  have hup := hnc Dir.up (by decide)
  have hdown := hnc Dir.down (by decide)
  refine ⟨hup, hdown, ?_⟩
  unfold exitCount
  rw [show allDirs = [Dir.north, Dir.south, Dir.east, Dir.west] ++ [Dir.up, Dir.down] from rfl,
    List.filter_append, List.length_append]
  have h2 : (([Dir.up, Dir.down]).filter
      (fun d => (((generate ambient c).rooms.data r).exits d).isSome)).length = 0 := by
    simp [List.filter, hup, hdown]
  rw [h2]
  simpa using List.length_filter_le _ [Dir.north, Dir.south, Dir.east, Dir.west]
